import Mathlib

/-!
Verification of the crcsim discrete-event microsimulation core.

This file shallowly embeds the parts of the crcsim source that the
specification's claims are about:

* `crcsim/scheduler.py` — the per-person event scheduler
  (`Scheduler.add_event`, `Scheduler.consume_next_event`);
* `crcsim/parameters.py` — the piecewise-constant `StepFunction`;
* `crcsim/__main__.py` — the lifespan sampler `compute_lifespan` and the
  driver `run`;
* `crcsim/agent.py` — `Person.is_compliant`, `Person.is_false_positive`,
  `Person.compute_lesion_delay`, `Lesion.is_detected`, the per-lesion scan
  loops of `Person.test_diagnostic` / `Person.test_surveillance`, and the
  yearly routine-testing machinery (`handle_yearly_actions`, `do_tests`,
  `test_routine`, `test_diagnostic`, the three statechart handlers).

Python floats are modelled as rationals (`ℚ`); Python exceptions as
`Except String`; the pseudorandom source as an explicit stream `ℕ → ℚ`
of `random.random()` draws together with a cursor.
-/

namespace Crcsim

/-- Python's `int()` applied to a float truncates toward zero. -/
def pyInt (q : ℚ) : ℤ := if 0 ≤ q then ⌊q⌋ else ⌈q⌉

/-- `bisect.bisect_right(x, v)`: for a list `x` sorted in nondecreasing
order, the insertion point after any existing entries equal to `v`, which
equals the number of leading elements `≤ v`. -/
def bisectRight (x : List ℚ) (v : ℚ) : ℕ :=
  (x.takeWhile (fun a => decide (a ≤ v))).length

/-! ## Scheduler (`crcsim/scheduler.py`) -/

/-- `Event`: message, firing time, enabled flag (`handler` is attached at the
use sites of the simulation embedding below; for the bare scheduler claims
the message alone identifies the event). -/
structure Event where
  message : String
  time : ℚ
  enabled : Bool := true
deriving DecidableEq

/-- The body of `Scheduler.add_event`'s insertion loop: walk the queue and
insert the new event before the first event whose time is strictly greater
(`if new_event.time < event.time`), appending at the end otherwise
(the `for ... else` clause). -/
def insertEvent (queue : List Event) (e : Event) : List Event :=
  match queue with
  | [] => [e]
  | f :: rest => if e.time < f.time then e :: f :: rest else f :: insertEvent rest e

/-- `Scheduler`: event queue plus the simulation clock. -/
structure Scheduler where
  queue : List Event
  time : ℚ
deriving DecidableEq

/-- `Scheduler()` — fresh scheduler: empty queue, time 0. -/
def Scheduler.fresh : Scheduler := ⟨[], 0⟩

/-- `Scheduler.add_event(message, delay)`: the new event gets time
`self.time + delay` and is inserted into the queue; the new event is
returned alongside the updated scheduler. -/
def Scheduler.add_event (s : Scheduler) (message : String) (delay : ℚ) :
    Event × Scheduler :=
  let newEvent : Event := { message := message, time := s.time + delay }
  (newEvent, { s with queue := insertEvent s.queue newEvent })

/-- `Scheduler.consume_next_event()`: pop the first event and advance the
clock to its time; `none` models the `IndexError` on an empty queue. -/
def Scheduler.consume_next_event (s : Scheduler) : Option (Event × Scheduler) :=
  match s.queue with
  | [] => none
  | e :: rest => some (e, { queue := rest, time := e.time })

/-- One scheduler operation of an interleaved add/consume program. -/
inductive SchedOp where
  | add (message : String) (delay : ℚ)
  | consume
deriving DecidableEq

/-- Whether an operation is an `add_event` call. -/
def SchedOp.isAdd : SchedOp → Bool
  | .add _ _ => true
  | .consume => false

/-- Delay of an operation (0 for consume, which has none). -/
def SchedOp.delay : SchedOp → ℚ
  | .add _ d => d
  | .consume => 0

/-- Run one operation on a scheduler, also accumulating the times of the
consumed events; `none` models the `IndexError` from consuming an empty
queue. -/
def schedStep (st : Scheduler × List ℚ) (op : SchedOp) :
    Option (Scheduler × List ℚ) :=
  match op with
  | .add m d => some ((st.1.add_event m d).2, st.2)
  | .consume =>
    match st.1.consume_next_event with
    | none => none
    | some (e, s') => some (s', st.2 ++ [e.time])

/-- Run a program of scheduler operations from a given state. -/
def schedRunFrom (st : Scheduler × List ℚ) : List SchedOp → Option (Scheduler × List ℚ)
  | [] => some st
  | op :: rest =>
    match schedStep st op with
    | none => none
    | some st' => schedRunFrom st' rest

/-- Run a program of scheduler operations from a fresh scheduler. -/
def schedRun (ops : List SchedOp) : Option (Scheduler × List ℚ) :=
  schedRunFrom (Scheduler.fresh, []) ops

/-- Consume every event of a scheduler in order, returning the list of
consumed events (used to phrase "consume_next_event returns A before B"). -/
def consumeAll (s : Scheduler) : List Event := s.queue

/-- Scheduler state invariant: queue sorted by nondecreasing time, all queued
events fire no earlier than the clock, consumed times are weakly increasing
and bounded by the clock. -/
def SchedInv (st : Scheduler × List ℚ) : Prop :=
  st.1.queue.Pairwise (fun a b => a.time ≤ b.time) ∧
    (∀ f ∈ st.1.queue, st.1.time ≤ f.time) ∧
    st.2.Chain' (· ≤ ·) ∧
    (∀ t ∈ st.2, t ≤ st.1.time)

/-! ## Step function (`crcsim/parameters.py`) -/

/-- `StepFunction`: maps each element of `x` to the corresponding element of
`y` (the value type is a parameter: the simulation uses both number-valued
and test-name-valued step functions). -/
structure StepFunction (α : Type) where
  x : List ℚ
  y : List α
deriving DecidableEq

/-- `StepFunction.__init__`: raise `ValueError` when the lengths differ, or
when `sorted(x) != x` — Python's `sorted` returns the nondecreasing
rearrangement, so `sorted(x) == x` holds exactly when `x` is already
nondecreasing (pairwise `≤`). -/
def StepFunction.make {α : Type} (x : List ℚ) (y : List α) :
    Except String (StepFunction α) :=
  if x.length ≠ y.length then
    .error "Lengths of x and y don't match"
  else if ¬ x.Pairwise (· ≤ ·) then
    .error "x isn't sorted in increasing order"
  else
    .ok ⟨x, y⟩

/-- `StepFunction.__call__`: `i = bisect_right(x, value) - 1`; raise
`ValueError` when `i < 0` (that is, when the bisection index is 0), else
return `y[i]` (in range under the constructor's equal-length check whenever
the index is, so out-of-range reads — Python `IndexError` — are modelled by
the default). -/
def StepFunction.eval {α : Type} [Inhabited α] (f : StepFunction α) (value : ℚ) :
    Except String α :=
  let i := bisectRight f.x value
  if i = 0 then
    .error "value is smaller than the smallest defined x value"
  else
    .ok (f.y.getD (i - 1) default)

/-! ## Lifespan sampler (`compute_lifespan` in `crcsim/__main__.py`;
`Person.compute_lifespan` in `crcsim/agent.py` is the same algorithm with
the same death-rate tables). -/

/-- The `for i in range(max_age + 1)` search loop of `compute_lifespan`:
threading `cum_prob_survive` and `cum_prob_death`, return the interpolated
lifespan at the first age where `rand < cum_prob_death`, or `none` when the
loop finishes without finding one. -/
def lifespanSearch (deathRate : ℕ → ℚ) (rand : ℚ) :
    List ℕ → ℚ → ℚ → Option ℚ
  | [], _, _ => none
  | i :: rest, cumProbSurvive, cumProbDeath =>
    let condProbDeath := deathRate i
    let probDeath := condProbDeath * cumProbSurvive
    let cumProbDeath' := cumProbDeath + probDeath
    let cumProbSurvive' := cumProbSurvive * (1 - condProbDeath)
    if rand < cumProbDeath' then
      some ((i : ℚ) + 1 - (cumProbDeath' - rand) / probDeath)
    else
      lifespanSearch deathRate rand rest cumProbSurvive' cumProbDeath'

/-- `compute_lifespan` (minus the demographic table selection, which only
picks which `deathRate` to use): run the search over ages `0 .. max_age`;
if no lifespan was found, use `max_age`; finally cap at `max_age`. -/
def compute_lifespan (deathRate : ℕ → ℚ) (maxAge : ℕ) (rand : ℚ) : ℚ :=
  let lifespan :=
    match lifespanSearch deathRate rand (List.range (maxAge + 1)) 1 0 with
    | some l => l
    | none => (maxAge : ℚ)
  if lifespan > (maxAge : ℚ) then (maxAge : ℚ) else lifespan

/-! ## Agent enumerations (`crcsim/agent.py`) -/

/-- `PersonDiseaseState`. -/
inductive PersonDiseaseState where
  | UNINITIALIZED | HEALTHY | SMALL_POLYP | MEDIUM_POLYP | LARGE_POLYP
  | PRECLINICAL_STAGE1 | PRECLINICAL_STAGE2 | PRECLINICAL_STAGE3 | PRECLINICAL_STAGE4
  | CLINICAL_STAGE1 | CLINICAL_STAGE2 | CLINICAL_STAGE3 | CLINICAL_STAGE4
  | DEAD
deriving DecidableEq

/-- `PersonDiseaseMessage`. -/
inductive PersonDiseaseMessage where
  | INIT | POLYP_ONSET | POLYP_MEDIUM_ONSET | POLYP_LARGE_ONSET
  | PRECLINICAL_ONSET | PRE2_ONSET | PRE3_ONSET | PRE4_ONSET | CLINICAL_ONSET
  | ALL_POLYPS_REMOVED | OTHER_DEATH | CRC_DEATH | POLYPECTOMY_DEATH
deriving DecidableEq

/-- `PersonTestingState`. -/
inductive PersonTestingState where
  | UNINITIALIZED | ROUTINE | DIAGNOSTIC | SKIP_TESTING | SURVEILLANCE | NO_TESTING
deriving DecidableEq

/-- `PersonTestingMessage`. -/
inductive PersonTestingMessage where
  | INIT | SYMPTOMATIC | SCREEN_POSITIVE | ROUTINE_IS_DIAGNOSTIC | NOT_COMPLIANT
  | RETURN_TO_ROUTINE | NEGATIVE | POSITIVE_POLYP | POSITIVE_CANCER
deriving DecidableEq

/-- `PersonTreatmentState`. -/
inductive PersonTreatmentState where
  | UNINITIALIZED | NO_TREATMENT | TREATMENT
deriving DecidableEq

/-- `PersonTreatmentMessage`. -/
inductive PersonTreatmentMessage where
  | INIT | START_TREATMENT
deriving DecidableEq

/-- `LesionState`. -/
inductive LesionState where
  | UNINITIALIZED | SMALL_POLYP | MEDIUM_POLYP | LARGE_POLYP
  | PRECLINICAL_STAGE1 | PRECLINICAL_STAGE2 | PRECLINICAL_STAGE3 | PRECLINICAL_STAGE4
  | CLINICAL_STAGE1 | CLINICAL_STAGE2 | CLINICAL_STAGE3 | CLINICAL_STAGE4
  | REMOVED | DEAD
deriving DecidableEq

/-- The four `CLINICAL_STAGE` lesion states. -/
def LesionState.isClinical : LesionState → Bool
  | .CLINICAL_STAGE1 | .CLINICAL_STAGE2 | .CLINICAL_STAGE3 | .CLINICAL_STAGE4 => true
  | _ => false

/-- `TestingRole`. -/
inductive TestingRole where
  | ROUTINE | DIAGNOSTIC | SURVEILLANCE
deriving DecidableEq

/-- `TreatmentRole`. -/
inductive TreatmentRole where
  | INITIAL | ONGOING | TERMINAL
deriving DecidableEq

/-- Per-test configuration (`params["tests"][name]`). -/
structure TestParams where
  proportion : ℚ
  routine_start : ℚ
  routine_end : ℚ
  routine_freq : ℚ
  specificity : ℚ
  sensitivity_polyp1 : ℚ
  sensitivity_polyp2 : ℚ
  sensitivity_polyp3 : ℚ
  sensitivity_cancer : ℚ
  proportion_perforation : ℚ
  compliance_rate_given_prev_compliant : List ℚ
  compliance_rate_given_not_prev_compliant : List ℚ
deriving DecidableEq

/-- The parameter bundle fields that the embedded code reads. -/
structure Params where
  tests : List (String × TestParams)
  routine_tests : List String
  diagnostic_test : Option String
  surveillance_test : Option String
  use_variable_routine_test : Bool
  routine_testing_year : List ℚ
  routine_test_by_year : List String
  variable_routine_test : StepFunction String
  use_conditional_compliance : Bool
  initial_compliance_rate : ℚ
  diagnostic_compliance_rate : ℚ
  surveillance_compliance_rate : ℚ
  never_compliant_rate : ℚ
  duration_screen_skip_testing : ℚ
  surveillance_end_age : ℚ
  surveillance_freq_polyp_none : ℚ
  surveillance_freq_polyp_mild : ℚ
  surveillance_freq_polyp_moderate : ℚ
  surveillance_freq_polyp_severe : ℚ
  surveillance_freq_cancer_first : ℚ
  surveillance_freq_cancer_second : ℚ
  surveillance_freq_cancer_rest : ℚ
  polypectomy_proportion_lethal : ℚ
  max_ongoing_treatments : ℕ
deriving DecidableEq

/-- Python dict access `params["tests"][name]`; `KeyError` when the key is
`None` or absent. -/
def lookupTest (P : Params) (name : Option String) : Except String TestParams :=
  match name with
  | none => .error "KeyError: None"
  | some n =>
    match P.tests.find? (fun p => p.1 = n) with
    | some p => .ok p.2
    | none => .error "KeyError: missing test"

/-- Result of one `Person.is_compliant` call: the returned boolean (or the
raised exception), the updated `routine_compliance_history`, the updated
random-stream cursor, and an observer flag recording whether the
conditional-compliance branch (the one that reads
`routine_compliance_history[-1]`) was entered. -/
structure ComplianceOutcome where
  result : Except String Bool
  history : List Bool
  cursor : ℕ
  usedConditional : Bool

/-- The `compliance_prob` computation of the routine arm of
`Person.is_compliant` (agent.py lines 947-995): never-compliant forces 0;
the initial-compliance path renormalizes `initial_compliance_rate` by
`1 - never_compliant_rate` and clamps to 1 (or uses 0 when
`never_compliant_rate ≥ 1`); the conditional-compliance path looks up the
routine test's rate list, indexed by the testing year, choosing the list by
`routine_compliance_history[-1]`. The second component is an observer flag:
it is `true` exactly when the conditional-compliance branch was entered. -/
def routineComplianceProb (P : Params) (neverCompliant : Bool)
    (routineTest : Option String) (history : List Bool) (time : ℚ) :
    Except String ℚ × Bool :=
  if neverCompliant then
    (.ok 0, false)
  else if (P.use_conditional_compliance = true ∧ history = []) ∨
      P.use_conditional_compliance = false then
    if P.never_compliant_rate < 1 then
      (.ok (if P.initial_compliance_rate / (1 - P.never_compliant_rate) > 1 then 1
        else P.initial_compliance_rate / (1 - P.never_compliant_rate)), false)
    else
      (.ok 0, false)
  else
    match lookupTest P routineTest with
    | .error e => (.error e, true)
    | .ok tp =>
      if pyInt (time - tp.routine_start) < 0 ∨
          ((pyInt (time - tp.routine_start) : ℤ) : ℚ) >
            tp.routine_end - tp.routine_start then
        (.error "ValueError: unexpected testing year", true)
      else
        match history.getLast? with
        | none => (.error "IndexError: history empty", true)
        | some b =>
          match (if b then tp.compliance_rate_given_prev_compliant
              else tp.compliance_rate_given_not_prev_compliant).get?
              (pyInt (time - tp.routine_start)).toNat with
          | none => (.error "IndexError: rate index", true)
          | some r => (.ok r, true)

/-- `Person.is_compliant(test)` (agent.py lines 933-1005), with the person
state passed explicitly: `testingState`, `routineIsDiagnostic`,
`neverCompliant`, `routineTest`, the current `routine_compliance_history`,
and the scheduler time; `rng`/`k` is the random stream with its cursor. -/
def is_compliant (P : Params) (testingState : PersonTestingState)
    (routineIsDiagnostic neverCompliant : Bool) (routineTest : Option String)
    (history : List Bool) (time : ℚ) (test : Option String)
    (rng : ℕ → ℚ) (k : ℕ) : ComplianceOutcome :=
  if test = none then
    ⟨.ok false, history, k, false⟩
  else if testingState = .DIAGNOSTIC ∧ routineIsDiagnostic = false then
    ⟨.ok (decide (rng k < P.diagnostic_compliance_rate)), history, k + 1, false⟩
  else if testingState = .SURVEILLANCE then
    ⟨.ok (decide (rng k < P.surveillance_compliance_rate)), history, k + 1, false⟩
  else if testingState = .ROUTINE ∨
      (testingState = .DIAGNOSTIC ∧ routineIsDiagnostic = true) then
    match routineComplianceProb P neverCompliant routineTest history time with
    | (.error e, uc) => ⟨.error e, history, k, uc⟩
    | (.ok prob, uc) =>
      ⟨.ok (decide (rng k < prob)), history ++ [decide (rng k < prob)], k + 1, uc⟩
  else
    ⟨.error "ValueError: unexpected testing state", history, k, false⟩

/-- `Person.is_false_positive(test)` (agent.py lines 1007-1012): `None`
short-circuits to `False`; otherwise the draw happens first (left operand of
`<`), then the specificity lookup. -/
def is_false_positive (P : Params) (test : Option String)
    (rng : ℕ → ℚ) (k : ℕ) : Except String Bool × ℕ :=
  if test = none then
    (.ok false, k)
  else
    match lookupTest P test with
    | .error e => (.error e, k + 1)
    | .ok tp => (.ok (decide (rng k < 1 - tp.specificity)), k + 1)

/-- `Lesion.is_detected(test)` (agent.py lines 2303-2344): `None` is never
detected; otherwise pick the sensitivity by lesion state (clinical stages
return `True` outright, `REMOVED`/`DEAD` return `False`, anything else is a
`ValueError`), then compare one draw against it. -/
def lesion_is_detected (P : Params) (state : LesionState) (test : Option String)
    (rng : ℕ → ℚ) (k : ℕ) : Except String Bool × ℕ :=
  if test = none then
    (.ok false, k)
  else
    match lookupTest P test with
    | .error e => (.error e, k)
    | .ok tp =>
      match state with
      | .SMALL_POLYP => (.ok (decide (rng k < tp.sensitivity_polyp1)), k + 1)
      | .MEDIUM_POLYP => (.ok (decide (rng k < tp.sensitivity_polyp2)), k + 1)
      | .LARGE_POLYP => (.ok (decide (rng k < tp.sensitivity_polyp3)), k + 1)
      | .PRECLINICAL_STAGE1 | .PRECLINICAL_STAGE2 | .PRECLINICAL_STAGE3
      | .PRECLINICAL_STAGE4 => (.ok (decide (rng k < tp.sensitivity_cancer)), k + 1)
      | .CLINICAL_STAGE1 | .CLINICAL_STAGE2 | .CLINICAL_STAGE3
      | .CLINICAL_STAGE4 => (.ok true, k)
      | .REMOVED | .DEAD => (.ok false, k)
      | .UNINITIALIZED => (.error "ValueError: Unexpected Lesion state", k)

/-- The detection counters threaded through the per-lesion loops of
`test_diagnostic` / `test_surveillance`. -/
structure ScanCounts where
  num_detected_lesions : ℕ
  num_detected_polyps : ℕ
  num_detected_polyps_small : ℕ
  num_detected_polyps_medium : ℕ
  num_detected_polyps_large : ℕ
  num_detected_cancer : ℕ
deriving DecidableEq

/-- All-zero counters, as initialized before each loop. -/
def ScanCounts.zero : ScanCounts := ⟨0, 0, 0, 0, 0, 0⟩

/-- Accumulated effects of a per-lesion loop: the counters, the random
cursor, the ids of lesions for which a pathology record was written, and the
ids of lesions to which a `CLINICAL_DETECTION` message was scheduled.
Lesions are carried as `(id, state)` pairs (ids come from the global
`Lesion.id_generator` counter in the source). -/
structure ScanResult where
  counts : ScanCounts
  cursor : ℕ
  pathologies : List ℤ
  detected : List ℤ
deriving DecidableEq

/-- A fresh `ScanResult` with zero counters and cursor `k`, as at loop
entry. -/
def ScanResult.start (k : ℕ) : ScanResult := ⟨ScanCounts.zero, k, [], []⟩

/-- The per-lesion loop of `Person.test_diagnostic` (agent.py lines
1170-1218): for each detected lesion, bump the counters by its state
(polyp sizes write one pathology record each; preclinical stages count as
cancers), then schedule a `CLINICAL_DETECTION` message to the lesion; a
detected lesion in any other state — in particular a clinical-stage one,
which `is_detected` always reports as detected — raises `ValueError`. -/
def diagScan (P : Params) (test : Option String) (rng : ℕ → ℚ) :
    List (ℤ × LesionState) → ScanResult → Except String ScanResult
  | [], acc => .ok acc
  | (i, s) :: rest, acc =>
    match lesion_is_detected P s test rng acc.cursor with
    | (.error e, _) => .error e
    | (.ok false, k') => diagScan P test rng rest { acc with cursor := k' }
    | (.ok true, k') =>
      match s with
      | .SMALL_POLYP =>
        diagScan P test rng rest
          { acc with
            cursor := k',
            counts := { acc.counts with
              num_detected_lesions := acc.counts.num_detected_lesions + 1,
              num_detected_polyps := acc.counts.num_detected_polyps + 1,
              num_detected_polyps_small := acc.counts.num_detected_polyps_small + 1 },
            pathologies := acc.pathologies ++ [i],
            detected := acc.detected ++ [i] }
      | .MEDIUM_POLYP =>
        diagScan P test rng rest
          { acc with
            cursor := k',
            counts := { acc.counts with
              num_detected_lesions := acc.counts.num_detected_lesions + 1,
              num_detected_polyps := acc.counts.num_detected_polyps + 1,
              num_detected_polyps_medium := acc.counts.num_detected_polyps_medium + 1 },
            pathologies := acc.pathologies ++ [i],
            detected := acc.detected ++ [i] }
      | .LARGE_POLYP =>
        diagScan P test rng rest
          { acc with
            cursor := k',
            counts := { acc.counts with
              num_detected_lesions := acc.counts.num_detected_lesions + 1,
              num_detected_polyps := acc.counts.num_detected_polyps + 1,
              num_detected_polyps_large := acc.counts.num_detected_polyps_large + 1 },
            pathologies := acc.pathologies ++ [i],
            detected := acc.detected ++ [i] }
      | .PRECLINICAL_STAGE1 | .PRECLINICAL_STAGE2 | .PRECLINICAL_STAGE3
      | .PRECLINICAL_STAGE4 =>
        diagScan P test rng rest
          { acc with
            cursor := k',
            counts := { acc.counts with
              num_detected_lesions := acc.counts.num_detected_lesions + 1,
              num_detected_cancer := acc.counts.num_detected_cancer + 1 },
            detected := acc.detected ++ [i] }
      | _ => .error "ValueError: Unexpected lesion state"

/-- The per-lesion loop of `Person.test_surveillance` (agent.py lines
1436-1492): identical to the diagnostic loop except that a detected lesion
in a clinical stage falls into an explicit no-op arm ("We don't need to do
anything about cancers that are already known") — though it still receives
the `CLINICAL_DETECTION` message scheduled after the state dispatch. -/
def survScan (P : Params) (test : Option String) (rng : ℕ → ℚ) :
    List (ℤ × LesionState) → ScanResult → Except String ScanResult
  | [], acc => .ok acc
  | (i, s) :: rest, acc =>
    match lesion_is_detected P s test rng acc.cursor with
    | (.error e, _) => .error e
    | (.ok false, k') => survScan P test rng rest { acc with cursor := k' }
    | (.ok true, k') =>
      match s with
      | .SMALL_POLYP =>
        survScan P test rng rest
          { acc with
            cursor := k',
            counts := { acc.counts with
              num_detected_lesions := acc.counts.num_detected_lesions + 1,
              num_detected_polyps := acc.counts.num_detected_polyps + 1,
              num_detected_polyps_small := acc.counts.num_detected_polyps_small + 1 },
            pathologies := acc.pathologies ++ [i],
            detected := acc.detected ++ [i] }
      | .MEDIUM_POLYP =>
        survScan P test rng rest
          { acc with
            cursor := k',
            counts := { acc.counts with
              num_detected_lesions := acc.counts.num_detected_lesions + 1,
              num_detected_polyps := acc.counts.num_detected_polyps + 1,
              num_detected_polyps_medium := acc.counts.num_detected_polyps_medium + 1 },
            pathologies := acc.pathologies ++ [i],
            detected := acc.detected ++ [i] }
      | .LARGE_POLYP =>
        survScan P test rng rest
          { acc with
            cursor := k',
            counts := { acc.counts with
              num_detected_lesions := acc.counts.num_detected_lesions + 1,
              num_detected_polyps := acc.counts.num_detected_polyps + 1,
              num_detected_polyps_large := acc.counts.num_detected_polyps_large + 1 },
            pathologies := acc.pathologies ++ [i],
            detected := acc.detected ++ [i] }
      | .PRECLINICAL_STAGE1 | .PRECLINICAL_STAGE2 | .PRECLINICAL_STAGE3
      | .PRECLINICAL_STAGE4 =>
        survScan P test rng rest
          { acc with
            cursor := k',
            counts := { acc.counts with
              num_detected_lesions := acc.counts.num_detected_lesions + 1,
              num_detected_cancer := acc.counts.num_detected_cancer + 1 },
            detected := acc.detected ++ [i] }
      | .CLINICAL_STAGE1 | .CLINICAL_STAGE2 | .CLINICAL_STAGE3
      | .CLINICAL_STAGE4 =>
        survScan P test rng rest { acc with detected := acc.detected ++ [i] }
      | _ => .error "ValueError: Unexpected lesion state"

/-- The observable part of a surveillance scan outcome that the claim
compares: detection counters, random cursor, and pathology records. -/
def ScanResult.observables (r : ScanResult) : ScanCounts × ℕ × List ℤ :=
  (r.counts, r.cursor, r.pathologies)

/-! ## Person simulation (`crcsim/agent.py` + the event loop of
`tests/conftest.py` / `crcsim/__main__.py`) -/

/-- Which bound method an event's `handler` refers to. The lesion statechart
handler is outside the scope of the claims (a no-lesion person never
schedules one); dispatching to it is modelled as an error, and the C2
theorem's error-free run certifies it is never reached. -/
inductive HandlerTag where
  | disease | testing | treatment | yearly | ongoing
  | lesion (idc : ℤ)
  | nohandler
deriving DecidableEq

/-- Event messages of the person simulation. -/
inductive Msg where
  | yearlyActions
  | ongoingTreatment
  | endSimulation
  | disease (m : PersonDiseaseMessage)
  | testing (m : PersonTestingMessage)
  | treatment (m : PersonTreatmentMessage)
  | lesionMsg (m : ℕ)
deriving DecidableEq

/-- A queued event of the person simulation: the `id` lets handlers later
flip `enabled` on a still-queued event (the cancellation protocol). -/
structure SimEvent where
  msg : Msg
  time : ℚ
  handler : HandlerTag
  enabled : Bool
  id : ℕ
deriving DecidableEq

/-- `Scheduler.add_event`'s insertion loop for simulation events (same
tie-break as `insertEvent`). -/
def insertSimEvent (queue : List SimEvent) (e : SimEvent) : List SimEvent :=
  match queue with
  | [] => [e]
  | f :: rest =>
    if e.time < f.time then e :: f :: rest else f :: insertSimEvent rest e

/-- One record of the append-only event log (`crcsim/output.py` adders). -/
inductive Rec where
  | testPerformed (name : Option String) (role : TestingRole) (time : ℚ)
  | testChosen (name : Option String) (time : ℚ)
  | noncompliance (name : Option String) (role : TestingRole) (time : ℚ)
  | diseaseChange (m : PersonDiseaseMessage) (old new : PersonDiseaseState)
      (routineTest : Option String) (time : ℚ)
  | lifespanRec (time : ℚ)
  | pathology (lesionId : ℤ) (role : TestingRole) (time : ℚ)
  | polypectomy (role : TestingRole) (time : ℚ)
  | perforation (name : Option String) (role : TestingRole)
      (routineTest : Option String) (time : ℚ)
  | treatmentRec (stage : Option ℕ) (role : TreatmentRole) (time : ℚ)
deriving DecidableEq

/-- The mutable attributes of a `Person` that the embedded code reads or
writes.  Python dicts are insertion-ordered association lists; dict keys can
be `None` (e.g. `previous_test_age[None] = ...` is legal), hence
`Option String` keys. -/
structure PersonState where
  diseaseState : PersonDiseaseState
  testingState : PersonTestingState
  treatmentState : PersonTreatmentState
  routineIsDiagnostic : Bool
  neverCompliant : Bool
  routineTest : Option String
  diagnosticTest : Option String
  surveillanceTest : Option String
  previousTestAge : List (Option String × ℤ)
  previousTestSmall : List (Option String × ℕ)
  previousTestMedium : List (Option String × ℕ)
  previousTestLarge : List (Option String × ℕ)
  routineComplianceHistory : List Bool
  numSurveillanceTestsSincePositive : Option ℕ
  previousTreatmentInitiationAge : Option ℤ
  numOngoingTreatments : ℕ
  stageAtDetection : Option ℕ
  testingTransitionTimeoutId : Option ℕ
  ongoingTreatmentId : Option ℕ
  expectedLifespan : Option ℚ
  lesions : List (ℤ × LesionState)
deriving DecidableEq

/-- A `Person` as freshly constructed (`Person.__init__`). -/
def PersonState.init : PersonState :=
  { diseaseState := .UNINITIALIZED, testingState := .UNINITIALIZED,
    treatmentState := .UNINITIALIZED, routineIsDiagnostic := false,
    neverCompliant := false, routineTest := none, diagnosticTest := none,
    surveillanceTest := none, previousTestAge := [], previousTestSmall := [],
    previousTestMedium := [], previousTestLarge := [],
    routineComplianceHistory := [], numSurveillanceTestsSincePositive := none,
    previousTreatmentInitiationAge := none, numOngoingTreatments := 0,
    stageAtDetection := none, testingTransitionTimeoutId := none,
    ongoingTreatmentId := none, expectedLifespan := none, lesions := [] }

/-- Python dict assignment `d[key] = v`: update in place (keeping insertion
order) when the key exists, append otherwise. -/
def dictSet {α : Type} (d : List (Option String × α)) (key : Option String)
    (v : α) : List (Option String × α) :=
  if d.any (fun p => p.1 = key) then
    d.map (fun p => if p.1 = key then (key, v) else p)
  else
    d ++ [(key, v)]

/-- Python dict lookup `d[key]`, raising `KeyError` when absent. -/
def dictGet {α : Type} (d : List (Option String × α)) (key : Option String) :
    Except String α :=
  match d.find? (fun p => p.1 = key) with
  | some p => .ok p.2
  | none => .error "KeyError"

/-- Python `key in d`. -/
def dictHas {α : Type} (d : List (Option String × α)) (key : Option String) :
    Bool :=
  d.any (fun p => p.1 = key)

/-- The whole mutable state of one person's simulation: the person, the
scheduler (queue, clock, id counter), the random-stream cursor, and the log. -/
structure World where
  person : PersonState
  queue : List SimEvent
  time : ℚ
  nextId : ℕ
  cursor : ℕ
  log : List Rec
deriving DecidableEq

/-- `scheduler.add_event(message, handler, delay)`: returns the new event's
id (the handle that callers keep to disable it). -/
def World.add_event (w : World) (msg : Msg) (tag : HandlerTag) (delay : ℚ) :
    ℕ × World :=
  (w.nextId,
    { w with
      queue := insertSimEvent w.queue
        ⟨msg, w.time + delay, tag, true, w.nextId⟩,
      nextId := w.nextId + 1 })

/-- `event.enabled = False` on a held event handle: flips the flag on the
queued copy if it is still queued (a consumed event is simply gone). -/
def World.disableEvent (w : World) (id : ℕ) : World :=
  { w with
    queue := w.queue.map (fun e =>
      if e.id = id then { e with enabled := false } else e) }

/-- Append one record to the output log. -/
def World.logRec (w : World) (r : Rec) : World := { w with log := w.log ++ [r] }

/-- One `self.rng.random()` draw. -/
def World.draw (w : World) (rng : ℕ → ℚ) : ℚ × World :=
  (rng w.cursor, { w with cursor := w.cursor + 1 })

/-- Run `Person.is_compliant` against the world, committing the updated
history and cursor and surfacing the drawn result. -/
def World.runIsCompliant (w : World) (P : Params) (rng : ℕ → ℚ)
    (test : Option String) : Except String Bool × World :=
  let ic := is_compliant P w.person.testingState w.person.routineIsDiagnostic
    w.person.neverCompliant w.person.routineTest
    w.person.routineComplianceHistory w.time test rng w.cursor
  (ic.result,
    { w with
      cursor := ic.cursor,
      person := { w.person with routineComplianceHistory := ic.history } })

/-- The common tail of `test_diagnostic` / `test_surveillance` after the
detection branch: store the per-size polyp counts under the test's key,
then roll for perforation. -/
def storeCountsAndPerforation (P : Params) (rng : ℕ → ℚ)
    (testName : Option String) (role : TestingRole) (counts : ScanCounts)
    (test_params : TestParams) (w : World) : Except String World :=
  let w := { w with person := { w.person with
    previousTestSmall :=
      dictSet w.person.previousTestSmall testName counts.num_detected_polyps_small,
    previousTestMedium :=
      dictSet w.person.previousTestMedium testName counts.num_detected_polyps_medium,
    previousTestLarge :=
      dictSet w.person.previousTestLarge testName counts.num_detected_polyps_large } }
  let (u, w) := w.draw rng
  if u < test_params.proportion_perforation then
    .ok (w.logRec (.perforation testName role w.person.routineTest w.time))
  else
    .ok w

/-- The log-and-event replay of a finished detection loop: one pathology
record per polyp-stage detection (in loop order), then the
`CLINICAL_DETECTION` events (in loop order).  The two streams (log, queue)
never read each other inside the loop, so replaying them grouped is
observationally the same as the source's interleaving. -/
def replayScanEffects (role : TestingRole) (res : ScanResult) (w : World) :
    World :=
  let w := res.pathologies.foldl
    (fun acc i => acc.logRec (.pathology i role acc.time)) w
  res.detected.foldl
    (fun acc i => ((acc.add_event (.lesionMsg 3) (.lesion i) 0)).2) w

/-- Emit exactly one outcome message for a diagnostic test, highest severity
first (`test_diagnostic` lines 1244-1262). -/
def diagnosticOutcome (counts : ScanCounts) (w : World) : Except String World :=
  if counts.num_detected_lesions = 0 then
    .ok ((w.add_event (.testing .NEGATIVE) .testing 0)).2
  else if counts.num_detected_cancer > 0 then
    .ok ((w.add_event (.testing .POSITIVE_CANCER) .testing 0)).2
  else if counts.num_detected_polyps > 0 then
    .ok ((w.add_event (.testing .POSITIVE_POLYP) .testing 0)).2
  else
    .error "ValueError: Unexpected set of diagnostic test results"

/-- Same for a surveillance test (`test_surveillance` lines 1518-1536). -/
def surveillanceOutcome (counts : ScanCounts) (w : World) :
    Except String World :=
  if counts.num_detected_lesions = 0 then
    .ok ((w.add_event (.testing .NEGATIVE) .testing 0)).2
  else if counts.num_detected_cancer > 0 then
    .ok ((w.add_event (.testing .POSITIVE_CANCER) .testing 0)).2
  else if counts.num_detected_polyps > 0 then
    .ok ((w.add_event (.testing .POSITIVE_POLYP) .testing 0)).2
  else
    .error "ValueError: Unexpected set of surveillance test results"

/-- `Person.test_diagnostic(symptomatic)` (agent.py lines 1098-1295). -/
def test_diagnostic (P : Params) (rng : ℕ → ℚ) (symptomatic : Bool)
    (w : World) : Except String World :=
  if w.person.testingState = .DIAGNOSTIC ∧
      w.person.diseaseState ∉ ([.CLINICAL_STAGE1, .CLINICAL_STAGE2,
        .CLINICAL_STAGE3, .CLINICAL_STAGE4, .DEAD] : List PersonDiseaseState) then
    let role := if w.person.routineIsDiagnostic then TestingRole.ROUTINE
      else TestingRole.DIAGNOSTIC
    match w.runIsCompliant P rng w.person.diagnosticTest with
    | (.error e, _) => .error e
    | (.ok c, w) =>
      if c = true ∨ symptomatic = true then
        match lookupTest P w.person.diagnosticTest with
        | .error e => .error e
        | .ok test_params =>
          let w := w.logRec (.testPerformed w.person.diagnosticTest role w.time)
          let w := { w with person := { w.person with
            previousTestAge := dictSet w.person.previousTestAge
              w.person.diagnosticTest (pyInt w.time) } }
          if w.person.diseaseState = .HEALTHY then
            match is_false_positive P w.person.diagnosticTest rng w.cursor with
            | (.error e, _) => .error e
            | (.ok fp, k') =>
              let w := { w with cursor := k' }
              if fp then
                let w := (w.logRec (.pathology (-1) role w.time)).logRec
                  (.polypectomy role w.time)
                let (u, w) := w.draw rng
                if u < P.polypectomy_proportion_lethal then
                  .ok ((w.add_event (.disease .POLYPECTOMY_DEATH) .disease 0)).2
                else
                  let w := ((w.add_event (.testing .NEGATIVE) .testing 0)).2
                  storeCountsAndPerforation P rng w.person.diagnosticTest role
                    ScanCounts.zero test_params w
              else
                let w := ((w.add_event (.testing .NEGATIVE) .testing 0)).2
                storeCountsAndPerforation P rng w.person.diagnosticTest role
                  ScanCounts.zero test_params w
          else
            match diagScan P w.person.diagnosticTest rng w.person.lesions
                (ScanResult.start w.cursor) with
            | .error e => .error e
            | .ok res =>
              let w := { w with cursor := res.cursor }
              let w := replayScanEffects role res w
              if res.counts.num_detected_polyps > 0 then
                let w := w.logRec (.polypectomy role w.time)
                let (u, w) := w.draw rng
                if u < P.polypectomy_proportion_lethal then
                  .ok ((w.add_event (.disease .POLYPECTOMY_DEATH) .disease 0)).2
                else
                  match diagnosticOutcome res.counts w with
                  | .error e => .error e
                  | .ok w =>
                    storeCountsAndPerforation P rng w.person.diagnosticTest role
                      res.counts test_params w
              else
                match diagnosticOutcome res.counts w with
                | .error e => .error e
                | .ok w =>
                  storeCountsAndPerforation P rng w.person.diagnosticTest role
                    res.counts test_params w
      else
        let w := ((w.add_event (.testing .NOT_COMPLIANT) .testing 0)).2
        .ok (w.logRec (.noncompliance w.person.diagnosticTest role w.time))
  else
    .ok w

/-- The per-lesion loop of `test_routine` (agent.py lines 1346-1354): stop at
the first detected lesion. -/
def routineDetect (P : Params) (test : Option String) (rng : ℕ → ℚ) :
    List (ℤ × LesionState) → ℕ → Except String (Bool × ℕ)
  | [], k => .ok (false, k)
  | (_, s) :: rest, k =>
    match lesion_is_detected P s test rng k with
    | (.error e, _) => .error e
    | (.ok true, k') => .ok (true, k')
    | (.ok false, k') => routineDetect P test rng rest k'

/-- `Person.test_routine()` (agent.py lines 1297-1371). -/
def test_routine (P : Params) (rng : ℕ → ℚ) (w : World) :
    Except String World :=
  if w.person.testingState = .ROUTINE ∧
      w.person.diseaseState ∉ ([.CLINICAL_STAGE1, .CLINICAL_STAGE2,
        .CLINICAL_STAGE3, .CLINICAL_STAGE4, .DEAD] : List PersonDiseaseState) then
    if w.person.routineTest = w.person.diagnosticTest then
      .ok ((w.add_event (.testing .ROUTINE_IS_DIAGNOSTIC) .testing 0)).2
    else
      match w.runIsCompliant P rng w.person.routineTest with
      | (.error e, _) => .error e
      | (.ok c, w) =>
        if c then
          match lookupTest P w.person.routineTest with
          | .error e => .error e
          | .ok test_params =>
            let w := w.logRec
              (.testPerformed w.person.routineTest TestingRole.ROUTINE w.time)
            let w := { w with person := { w.person with
              previousTestAge := dictSet w.person.previousTestAge
                w.person.routineTest (pyInt w.time) } }
            let detectStep : Except String World :=
              if w.person.diseaseState = .HEALTHY then
                match is_false_positive P w.person.routineTest rng w.cursor with
                | (.error e, _) => .error e
                | (.ok fp, k') =>
                  let w := { w with cursor := k' }
                  if fp then
                    .ok ((w.add_event (.testing .SCREEN_POSITIVE) .testing 0)).2
                  else
                    .ok w
              else if w.person.diseaseState ∈ ([.SMALL_POLYP, .MEDIUM_POLYP,
                  .LARGE_POLYP, .PRECLINICAL_STAGE1, .PRECLINICAL_STAGE2,
                  .PRECLINICAL_STAGE3, .PRECLINICAL_STAGE4] :
                    List PersonDiseaseState) then
                match routineDetect P w.person.routineTest rng
                    w.person.lesions w.cursor with
                | .error e => .error e
                | .ok (found, k') =>
                  let w := { w with cursor := k' }
                  if found then
                    .ok ((w.add_event (.testing .SCREEN_POSITIVE) .testing 0)).2
                  else
                    .ok w
              else
                .ok w
            match detectStep with
            | .error e => .error e
            | .ok w =>
              let (u, w) := w.draw rng
              if u < test_params.proportion_perforation then
                .ok (w.logRec (.perforation w.person.routineTest
                  TestingRole.ROUTINE w.person.routineTest w.time))
              else
                .ok w
        else
          .ok (w.logRec
            (.noncompliance w.person.routineTest TestingRole.ROUTINE w.time))
  else
    .ok w

/-- `Person.test_surveillance(symptomatic)` (agent.py lines 1373-1569). -/
def test_surveillance (P : Params) (rng : ℕ → ℚ) (symptomatic : Bool)
    (w : World) : Except String World :=
  if w.person.testingState = .SURVEILLANCE ∧
      w.person.diseaseState ≠ .DEAD then
    match w.runIsCompliant P rng w.person.surveillanceTest with
    | (.error e, _) => .error e
    | (.ok c, w) =>
      if c = true ∨ symptomatic = true then
        match lookupTest P w.person.surveillanceTest with
        | .error e => .error e
        | .ok test_params =>
          let w := w.logRec
            (.testPerformed w.person.surveillanceTest TestingRole.SURVEILLANCE w.time)
          let w := { w with person := { w.person with
            previousTestAge := dictSet w.person.previousTestAge
              w.person.surveillanceTest (pyInt w.time) } }
          match w.person.numSurveillanceTestsSincePositive with
          | none => .error "TypeError: unsupported operand, NoneType + int"
          | some nts =>
            let w := { w with person := { w.person with
              numSurveillanceTestsSincePositive := some (nts + 1) } }
            if w.person.diseaseState = .HEALTHY then
              match is_false_positive P w.person.surveillanceTest rng w.cursor with
              | (.error e, _) => .error e
              | (.ok fp, k') =>
                let w := { w with cursor := k' }
                if fp then
                  let w := (w.logRec
                    (.pathology (-1) TestingRole.SURVEILLANCE w.time)).logRec
                    (.polypectomy TestingRole.SURVEILLANCE w.time)
                  let (u, w) := w.draw rng
                  if u < P.polypectomy_proportion_lethal then
                    .ok ((w.add_event (.disease .POLYPECTOMY_DEATH) .disease 0)).2
                  else
                    let w := ((w.add_event (.testing .NEGATIVE) .testing 0)).2
                    storeCountsAndPerforation P rng w.person.surveillanceTest
                      TestingRole.SURVEILLANCE ScanCounts.zero test_params w
                else
                  let w := ((w.add_event (.testing .NEGATIVE) .testing 0)).2
                  storeCountsAndPerforation P rng w.person.surveillanceTest
                    TestingRole.SURVEILLANCE ScanCounts.zero test_params w
            else
              match survScan P w.person.surveillanceTest rng w.person.lesions
                  (ScanResult.start w.cursor) with
              | .error e => .error e
              | .ok res =>
                let w := { w with cursor := res.cursor }
                let w := replayScanEffects TestingRole.SURVEILLANCE res w
                if res.counts.num_detected_polyps > 0 then
                  let w := w.logRec (.polypectomy TestingRole.SURVEILLANCE w.time)
                  let (u, w) := w.draw rng
                  if u < P.polypectomy_proportion_lethal then
                    .ok ((w.add_event (.disease .POLYPECTOMY_DEATH) .disease 0)).2
                  else
                    match surveillanceOutcome res.counts w with
                    | .error e => .error e
                    | .ok w =>
                      storeCountsAndPerforation P rng w.person.surveillanceTest
                        TestingRole.SURVEILLANCE res.counts test_params w
                else
                  match surveillanceOutcome res.counts w with
                  | .error e => .error e
                  | .ok w =>
                    storeCountsAndPerforation P rng w.person.surveillanceTest
                      TestingRole.SURVEILLANCE res.counts test_params w
      else
        let w := ((w.add_event (.testing .NOT_COMPLIANT) .testing 0)).2
        .ok (w.logRec (.noncompliance w.person.surveillanceTest
          TestingRole.SURVEILLANCE w.time))
  else
    .ok w

/-- `Person.handle_testing_message(message)` (agent.py lines 583-661). -/
def handle_testing_message (P : Params) (rng : ℕ → ℚ)
    (m : PersonTestingMessage) (w : World) : Except String World :=
  match w.person.testingState with
  | .UNINITIALIZED =>
    if m = .INIT then
      .ok { w with person := { w.person with testingState := .ROUTINE } }
    else
      .error "ValueError: unexpected message in testing state UNINITIALIZED"
  | .ROUTINE =>
    match m with
    | .SYMPTOMATIC =>
      test_diagnostic P rng true
        { w with person := { w.person with testingState := .DIAGNOSTIC } }
    | .SCREEN_POSITIVE =>
      test_diagnostic P rng false
        { w with person := { w.person with testingState := .DIAGNOSTIC } }
    | .ROUTINE_IS_DIAGNOSTIC =>
      test_diagnostic P rng false
        { w with person :=
          { w.person with
            testingState := .DIAGNOSTIC
            routineIsDiagnostic := true } }
    | _ => .ok w
  | .DIAGNOSTIC =>
    match m with
    | .NEGATIVE =>
      let w := { w with person := { w.person with
        testingState := .SKIP_TESTING, routineIsDiagnostic := false } }
      let (tid, w) := w.add_event (.testing .RETURN_TO_ROUTINE) .testing
        P.duration_screen_skip_testing
      .ok { w with person := { w.person with
        testingTransitionTimeoutId := some tid } }
    | .NOT_COMPLIANT =>
      .ok { w with person := { w.person with
        testingState := .ROUTINE, routineIsDiagnostic := false } }
    | .POSITIVE_POLYP =>
      .ok { w with person := { w.person with
        testingState := .SURVEILLANCE,
        numSurveillanceTestsSincePositive := some 0,
        routineIsDiagnostic := false } }
    | .POSITIVE_CANCER =>
      .ok { w with person := { w.person with
        testingState := .SURVEILLANCE,
        numSurveillanceTestsSincePositive := some 0,
        routineIsDiagnostic := false } }
    | _ => .ok w
  | .SKIP_TESTING =>
    match m with
    | .SYMPTOMATIC =>
      match w.person.testingTransitionTimeoutId with
      | none => .error "AttributeError: NoneType has no attribute enabled"
      | some tid =>
        let w := w.disableEvent tid
        test_diagnostic P rng true
          { w with person := { w.person with testingState := .DIAGNOSTIC } }
    | .RETURN_TO_ROUTINE =>
      match w.person.testingTransitionTimeoutId with
      | none => .error "AttributeError: NoneType has no attribute enabled"
      | some tid =>
        let w := w.disableEvent tid
        .ok { w with person := { w.person with testingState := .ROUTINE } }
    | _ => .ok w
  | .SURVEILLANCE =>
    match m with
    | .SYMPTOMATIC =>
      test_surveillance P rng true
        { w with person := { w.person with testingState := .SURVEILLANCE } }
    | .POSITIVE_POLYP =>
      .ok { w with person := { w.person with
        testingState := .SURVEILLANCE,
        numSurveillanceTestsSincePositive := some 0 } }
    | .POSITIVE_CANCER =>
      let w := { w with person := { w.person with
        testingState := .SURVEILLANCE,
        numSurveillanceTestsSincePositive := some 0 } }
      .ok ((w.add_event (.treatment .START_TREATMENT) .treatment 0)).2
    | _ => .ok w
  | .NO_TESTING => .error "ValueError: unexpected testing state NO_TESTING"

/-- `Person.handle_disease_message(message)` restricted to the states a
lesion-free person can occupy: `UNINITIALIZED` (lines 237-248), `HEALTHY`
(lines 249-265) and the absorbing `DEAD` (lines 578-579).  The polyp,
preclinical and clinical arms drive and are driven by the lesion statechart,
which is outside the claims' scope; reaching one is modelled as an error,
and the C2 run's error-freeness certifies they are never reached there. -/
def handle_disease_message (m : PersonDiseaseMessage) (w : World) :
    Except String World :=
  match w.person.diseaseState with
  | .UNINITIALIZED =>
    if m = .INIT then
      let w := { w with person := { w.person with diseaseState := .HEALTHY } }
      .ok (w.logRec (.diseaseChange m .UNINITIALIZED .HEALTHY
        w.person.routineTest w.time))
    else
      .error "ValueError: unexpected message in disease state UNINITIALIZED"
  | .HEALTHY =>
    if m = .POLYP_ONSET then
      let w := { w with person := { w.person with diseaseState := .SMALL_POLYP } }
      .ok (w.logRec (.diseaseChange m .HEALTHY .SMALL_POLYP
        w.person.routineTest w.time))
    else if m = .OTHER_DEATH ∨ m = .POLYPECTOMY_DEATH then
      let w := { w with person := { w.person with diseaseState := .DEAD } }
      let w := w.logRec (.diseaseChange m .HEALTHY .DEAD
        w.person.routineTest w.time)
      .ok ((w.add_event .endSimulation .nohandler 0)).2
    else
      .ok w
  | .DEAD => .ok w
  | _ => .error "disease state not modelled (requires the lesion statechart)"

/-- `Person.handle_ongoing_treatment` (agent.py lines 1580-1594). -/
def handle_ongoing_treatment (P : Params) (w : World) : Except String World :=
  let w := { w with person := { w.person with
    numOngoingTreatments := w.person.numOngoingTreatments + 1 } }
  let w := w.logRec (.treatmentRec w.person.stageAtDetection
    TreatmentRole.ONGOING w.time)
  if w.person.numOngoingTreatments < P.max_ongoing_treatments then
    let (oid, w) := w.add_event .ongoingTreatment .ongoing 1
    .ok { w with person := { w.person with ongoingTreatmentId := some oid } }
  else
    .ok w

/-- `Person.handle_treatment_message(message)` (agent.py lines 663-712). -/
def handle_treatment_message (m : PersonTreatmentMessage) (w : World) :
    Except String World :=
  match w.person.treatmentState with
  | .UNINITIALIZED =>
    if m = .INIT then
      .ok { w with person := { w.person with treatmentState := .NO_TREATMENT } }
    else
      .error "ValueError: unexpected message in treatment state UNINITIALIZED"
  | .NO_TREATMENT =>
    match m with
    | .START_TREATMENT =>
      let w := { w with person := { w.person with treatmentState := .TREATMENT } }
      let w := w.logRec (.treatmentRec w.person.stageAtDetection
        TreatmentRole.INITIAL w.time)
      let w := { w with person := { w.person with
        previousTreatmentInitiationAge := some (pyInt w.time),
        numOngoingTreatments := 0 } }
      let (oid, w) := w.add_event .ongoingTreatment .ongoing 1
      .ok { w with person := { w.person with ongoingTreatmentId := some oid } }
    | _ => .ok w
  | .TREATMENT =>
    match m with
    | .START_TREATMENT =>
      match w.person.ongoingTreatmentId with
      | none => .error "AttributeError: NoneType has no attribute enabled"
      | some oid =>
        let w := w.disableEvent oid
        let w := { w with person := { w.person with treatmentState := .TREATMENT } }
        let w := w.logRec (.treatmentRec w.person.stageAtDetection
          TreatmentRole.INITIAL w.time)
        let w := { w with person := { w.person with
          previousTreatmentInitiationAge := some (pyInt w.time),
          numOngoingTreatments := 0 } }
        let (oid2, w) := w.add_event .ongoingTreatment .ongoing 1
        .ok { w with person := { w.person with ongoingTreatmentId := some oid2 } }
    | _ => .ok w

/-- The `found_skip` loop of `do_tests` (agent.py lines 1646-1654): the
person is skipped if any routine test was taken more recently than its
`routine_freq`.  (In the source, `previous_test_age` values are always
ints, so the `age is not None` test is always true.) -/
def foundSkip (P : Params) (time : ℚ) :
    List (Option String × ℤ) → Except String Bool
  | [] => .ok false
  | (key, age) :: rest =>
    if (match key with
        | some sname => P.routine_tests.contains sname
        | none => false) then
      match lookupTest P key with
      | .error e => .error e
      | .ok tp =>
        if ((pyInt time - age : ℤ) : ℚ) < tp.routine_freq then
          .ok true
        else
          foundSkip P time rest
    else
      foundSkip P time rest

/-- `Person.do_tests()` (agent.py lines 1628-1755). -/
def do_tests (P : Params) (rng : ℕ → ℚ) (w : World) : Except String World :=
  if w.person.testingState = .ROUTINE then
    match lookupTest P w.person.routineTest with
    | .error e => .error e
    | .ok test_params =>
      if ((pyInt w.time : ℤ) : ℚ) < test_params.routine_start ∨
          ((pyInt w.time : ℤ) : ℚ) > test_params.routine_end then
        .ok w
      else
        match foundSkip P w.time w.person.previousTestAge with
        | .error e => .error e
        | .ok true => .ok w
        | .ok false => test_routine P rng w
  else if w.person.testingState = .SURVEILLANCE then
    if ((pyInt w.time : ℤ) : ℚ) > P.surveillance_end_age then
      .ok w
    else
      let prevAndFreq : Except String (ℤ × ℚ) :=
        if w.person.treatmentState = .NO_TREATMENT then
          if ¬ dictHas w.person.previousTestAge w.person.diagnosticTest then
            .error "ValueError: Did not expect age at previous diagnostic test to be null"
          else
            match dictGet w.person.previousTestAge w.person.diagnosticTest with
            | .error e => .error e
            | .ok diagAge =>
              let prev : Except String (Option String × ℤ) :=
                if ¬ dictHas w.person.previousTestAge w.person.surveillanceTest then
                  .ok (w.person.diagnosticTest, diagAge)
                else
                  match dictGet w.person.previousTestAge
                      w.person.surveillanceTest with
                  | .error e => .error e
                  | .ok survAge =>
                    if survAge < diagAge then
                      .ok (w.person.diagnosticTest, diagAge)
                    else
                      .ok (w.person.surveillanceTest, survAge)
              match prev with
              | .error e => .error e
              | .ok (previousTest, previousTestAgeVal) =>
                match dictGet w.person.previousTestSmall previousTest,
                    dictGet w.person.previousTestMedium previousTest,
                    dictGet w.person.previousTestLarge previousTest with
                | .ok nSmall, .ok nMedium, .ok nLarge =>
                  if nSmall + nMedium + nLarge = 0 then
                    .ok (previousTestAgeVal, P.surveillance_freq_polyp_none)
                  else if nSmall + nMedium ≤ 2 ∧ nLarge = 0 then
                    .ok (previousTestAgeVal, P.surveillance_freq_polyp_mild)
                  else if nSmall + nMedium + nLarge ≤ 10 then
                    .ok (previousTestAgeVal, P.surveillance_freq_polyp_moderate)
                  else
                    .ok (previousTestAgeVal, P.surveillance_freq_polyp_severe)
                | _, _, _ => .error "KeyError"
        else
          match dictGet w.person.previousTestAge w.person.surveillanceTest with
          | .error e => .error e
          | .ok previousSurveillanceAge =>
            match w.person.previousTreatmentInitiationAge with
            | none =>
              .error "ValueError: Did not expect previous treatment initiation age to be null"
            | some initAge =>
              match w.person.numSurveillanceTestsSincePositive with
              | none =>
                .error "ValueError: Did not expect number of surveillance tests since positive to be null"
              | some nts =>
                .ok (max previousSurveillanceAge initAge,
                  if nts = 0 then P.surveillance_freq_cancer_first
                  else if nts = 1 then P.surveillance_freq_cancer_second
                  else P.surveillance_freq_cancer_rest)
      match prevAndFreq with
      | .error e => .error e
      | .ok (previousTestAgeVal, frequency) =>
        if ((pyInt w.time - previousTestAgeVal : ℤ) : ℚ) ≥ frequency then
          test_surveillance P rng false w
        else
          .ok w
  else
    .ok w

/-- `Person.handle_yearly_actions` (agent.py lines 1596-1626). -/
def handle_yearly_actions (P : Params) (rng : ℕ → ℚ) (w : World) :
    Except String World :=
  let step1 : Except String World :=
    if P.use_variable_routine_test then
      match P.routine_testing_year.head?, P.routine_testing_year.getLast? with
      | some y0, some yN =>
        if w.time ≥ y0 ∧ w.time ≤ yN then
          match P.variable_routine_test.eval w.time with
          | .error e => .error e
          | .ok tname =>
            let w := { w with person :=
              { w.person with routineTest := some tname } }
            .ok (w.logRec (.testChosen (some tname) w.time))
        else
          .ok w
      | _, _ => .error "IndexError: routine_testing_year is empty"
    else
      .ok w
  match step1 with
  | .error e => .error e
  | .ok w =>
    match do_tests P rng w with
    | .error e => .error e
    | .ok w => .ok ((w.add_event .yearlyActions .yearly 1)).2

/-- Dispatch a consumed event to its handler (`handler(event.message)` in
the drivers). -/
def dispatchEvent (P : Params) (rng : ℕ → ℚ) (e : SimEvent) (w : World) :
    Except String World :=
  match e.handler, e.msg with
  | .yearly, _ => handle_yearly_actions P rng w
  | .disease, .disease m => handle_disease_message m w
  | .testing, .testing m => handle_testing_message P rng m w
  | .treatment, .treatment m => handle_treatment_message m w
  | .ongoing, _ => handle_ongoing_treatment P w
  | .lesion _, _ => .error "lesion handler not modelled"
  | .nohandler, _ => .error "TypeError: NoneType object is not callable"
  | _, _ => .error "handler/message mismatch"

/-- The event loop of `BasePersonForTests.simulate` (tests/conftest.py) and
`crcsim.__main__.run`: pop the next event, advance the clock, skip disabled
events, stop on `end_simulation`, otherwise dispatch.  `fuel` bounds the
number of iterations; the returned flag is `true` exactly when the loop
terminated on its own (empty queue or `end_simulation`) within the fuel. -/
def runLoop (P : Params) (rng : ℕ → ℚ) : ℕ → World → Except String (World × Bool)
  | 0, w => .ok (w, false)
  | fuel + 1, w =>
    match w.queue with
    | [] => .ok (w, true)
    | e :: rest =>
      let w := { w with queue := rest, time := e.time }
      if e.enabled = false then
        runLoop P rng fuel w
      else if e.msg = .endSimulation then
        .ok (w, true)
      else
        match dispatchEvent P rng e w with
        | .error err => .error err
        | .ok w' => runLoop P rng fuel w'

/-- The cumulative-cut walk of `choose_tests` (agent.py lines 916-925). -/
def chooseTestLoop (u : ℚ) : List (String × TestParams) → ℚ → Option String
  | [], _ => none
  | (nm, tp) :: rest, cum =>
    let cum' := cum + tp.proportion
    if u < cum' then some nm else chooseTestLoop u rest cum'

/-- `Person.choose_tests()` (agent.py lines 869-925). -/
def choose_tests (P : Params) (rng : ℕ → ℚ) (w : World) :
    Except String World :=
  let w := { w with person := { w.person with
    diagnosticTest := P.diagnostic_test,
    surveillanceTest := P.surveillance_test } }
  if P.use_variable_routine_test then
    match P.routine_test_by_year.head? with
    | none => .error "IndexError: routine_test_by_year is empty"
    | some startingTest =>
      let w := { w with person := { w.person with
        routineTest := some startingTest } }
      .ok (w.logRec (.testChosen (some startingTest) w.time))
  else
    let directProb : ℚ := (P.tests.map (fun p => p.2.proportion)).sum
    if directProb > 1 then
      .error "ValueError: Sum of test probabilities > 1"
    else
      let w := { w with person := { w.person with routineTest := none } }
      let (u, w) := w.draw rng
      match chooseTestLoop u P.tests 0 with
      | none => .ok w
      | some nm =>
        let w := { w with person := { w.person with routineTest := some nm } }
        .ok (w.logRec (.testChosen (some nm) w.time))

/-- `BasePersonForTests.start` (tests/conftest.py): `choose_tests`, the
three INIT messages, the yearly-actions event at delay 1, a fixed expected
lifespan of 100 with the `OTHER_DEATH` event and lifespan record, and no
lesion scheduling — the person never develops a lesion. -/
def startNoLesions (P : Params) (rng : ℕ → ℚ) (w : World) :
    Except String World :=
  match choose_tests P rng w with
  | .error e => .error e
  | .ok w =>
    match handle_disease_message .INIT w with
    | .error e => .error e
    | .ok w =>
      match handle_testing_message P rng .INIT w with
      | .error e => .error e
      | .ok w =>
        match handle_treatment_message .INIT w with
        | .error e => .error e
        | .ok w =>
          let w := ((w.add_event .yearlyActions .yearly 1)).2
          let w := { w with person := { w.person with
            expectedLifespan := some 100 } }
          let w := ((w.add_event (.disease .OTHER_DEATH) .disease 100)).2
          .ok (w.logRec (.lifespanRec 100))

/-- A fresh simulation world: new `Scheduler()` (time 0, empty queue), a
fresh `Person`, random cursor 0, empty log. -/
def World.init : World :=
  { person := PersonState.init, queue := [], time := 0, nextId := 0,
    cursor := 0, log := [] }

/-- The firing times of the `test_performed` records for a given test name. -/
def testPerformedTimes (log : List Rec) (name : String) : List ℚ :=
  log.filterMap (fun r =>
    match r with
    | .testPerformed (some n) _ t => if n = name then some t else none
    | _ => none)

/-- The FIT test configuration for the S5 scenario.  The claim fixes
specificity 1 and full compliance; the remaining values are modelled from
the spec and the repository's test fixtures
(`tests/test_variable_routine_testing.py`): FIT is a yearly test
(`routine_freq = 1`) offered over ages 50-75, with no perforations and
(unused, since the person has no lesions) perfect sensitivities. -/
def fitTest : TestParams :=
  { proportion := 0, routine_start := 50, routine_end := 75,
    routine_freq := 1, specificity := 1, sensitivity_polyp1 := 1,
    sensitivity_polyp2 := 1, sensitivity_polyp3 := 1,
    sensitivity_cancer := 1, proportion_perforation := 0,
    compliance_rate_given_prev_compliant := List.replicate 26 1,
    compliance_rate_given_not_prev_compliant := List.replicate 26 1 }

/-- The Colonoscopy test configuration for the S5 scenario: every ten years
(`routine_freq = 10`), ages 50-75, specificity 1, full compliance. -/
def colonoscopyTest : TestParams :=
  { proportion := 0, routine_start := 50, routine_end := 75,
    routine_freq := 10, specificity := 1, sensitivity_polyp1 := 1,
    sensitivity_polyp2 := 1, sensitivity_polyp3 := 1,
    sensitivity_cancer := 1, proportion_perforation := 0,
    compliance_rate_given_prev_compliant := List.replicate 26 1,
    compliance_rate_given_not_prev_compliant := List.replicate 26 1 }

/-- The testing years 50, 51, …, 75. -/
def scenarioYears : List ℚ := (List.range 26).map (fun i => (50 : ℚ) + i)

/-- The year-by-year routine test of the claim: the first 11 testing years
(ages 50-60) map to Colonoscopy, the remaining 15 (ages 61-75) to FIT. -/
def scenarioTestByYear : List String :=
  List.replicate 11 "Colonoscopy" ++ List.replicate 15 "FIT"

/-- The S5 parameter bundle: variable routine testing over ages 50-75 with
the 11/15 Colonoscopy/FIT split, specificity 1, compliance 1 throughout
(conditional compliance enabled with all rates 1, never-compliant rate 0).
Colonoscopy is the diagnostic and surveillance test, and a negative
diagnostic test skips testing for 10 years — values modelled from the spec
and the repository's test fixtures, since `parameters.json` is not part of
the source tree. -/
def scenarioParams : Params :=
  { tests := [("FIT", fitTest), ("Colonoscopy", colonoscopyTest)],
    routine_tests := ["FIT", "Colonoscopy"],
    diagnostic_test := some "Colonoscopy",
    surveillance_test := some "Colonoscopy",
    use_variable_routine_test := true,
    routine_testing_year := scenarioYears,
    routine_test_by_year := scenarioTestByYear,
    variable_routine_test := ⟨scenarioYears, scenarioTestByYear⟩,
    use_conditional_compliance := true,
    initial_compliance_rate := 1,
    diagnostic_compliance_rate := 1,
    surveillance_compliance_rate := 1,
    never_compliant_rate := 0,
    duration_screen_skip_testing := 10,
    surveillance_end_age := 85,
    surveillance_freq_polyp_none := 10,
    surveillance_freq_polyp_mild := 5,
    surveillance_freq_polyp_moderate := 3,
    surveillance_freq_polyp_severe := 1,
    surveillance_freq_cancer_first := 1,
    surveillance_freq_cancer_second := 3,
    surveillance_freq_cancer_rest := 5,
    polypectomy_proportion_lethal := 0,
    max_ongoing_treatments := 5 }

/-- A conforming random stream: every `random.random()` draw yields 0
(any stream with values in `[0, 1)` produces the same run, since the only
draws compared are against probabilities 0 and 1). -/
def scenarioRng : ℕ → ℚ := fun _ => 0

/-- The S5 simulation: start the no-lesion person at time 0 and run the
event loop to completion (400 fuel covers the 100 simulated years with
room to spare; the theorem checks the loop actually finished). -/
def scenarioRun : Except String (World × Bool) :=
  match startNoLesions scenarioParams scenarioRng World.init with
  | .error e => .error e
  | .ok w => runLoop scenarioParams scenarioRng 400 w

/-- Number of `test_performed` records in a log. -/
def countTestPerformed (log : List Rec) : ℕ :=
  (log.filter (fun r =>
    match r with
    | .testPerformed _ _ _ => true
    | _ => false)).length

/-- A ROUTINE-state healthy person whose routine test came out `None`
(diagnostic test Colonoscopy). -/
def wRoutineNone : World :=
  { World.init with person := { World.init.person with
    testingState := PersonTestingState.ROUTINE
    diseaseState := PersonDiseaseState.HEALTHY
    diagnosticTest := some "Colonoscopy" } }

/-! ## `Person.compute_lesion_delay` (agent.py 714-819)

The Python loop draws `u`, sets `target_area = -log(1 - u) /
lesion_risk_index`, and walks the incidence step curve box by box.  The
logarithm is irrational, so the embedding takes the nonnegative quantity
`negLog` (standing for `-log(1 - u)`) as an input and performs the same
division.  The `while True:` loop is embedded with a fuel parameter; each
iteration strictly increases the bisection index, so `len(x) + 1` units of
fuel always suffice (proved below), and the `RecursionError` arm is never
reached from `compute_lesion_delay`. -/

/-- The `while True:` body: bisect for the box end, give up (`None`) past
the end of the curve, accumulate `(box_end - box_start) * height`, and on
crossing the target solve the last box exactly (Python would raise
`ZeroDivisionError` on a zero height there). -/
def compute_lesion_delay_go (f : StepFunction ℚ) (targetArea lifespan now : ℚ) :
    ℕ → ℚ → ℚ → Except String (Option ℚ)
  | 0, _, _ => .error "RecursionError: maximum recursion depth exceeded"
  | fuel + 1, cumulativeArea, boxStartTime =>
    if f.x.length ≤ bisectRight f.x boxStartTime then
      .ok none
    else
      (StepFunction.eval f boxStartTime).bind fun boxHeight =>
        if targetArea ≤ cumulativeArea +
            (f.x.getD (bisectRight f.x boxStartTime) 0 - boxStartTime) *
              boxHeight then
          if boxHeight = 0 then
            .error "ZeroDivisionError: division by zero"
          else if f.x.getD (bisectRight f.x boxStartTime) 0 -
              (cumulativeArea +
                (f.x.getD (bisectRight f.x boxStartTime) 0 - boxStartTime) *
                  boxHeight - targetArea) / boxHeight ≤ lifespan then
            .ok (some (f.x.getD (bisectRight f.x boxStartTime) 0 -
              (cumulativeArea +
                (f.x.getD (bisectRight f.x boxStartTime) 0 - boxStartTime) *
                  boxHeight - targetArea) / boxHeight - now))
          else
            .ok none
        else
          compute_lesion_delay_go f targetArea lifespan now fuel
            (cumulativeArea +
              (f.x.getD (bisectRight f.x boxStartTime) 0 - boxStartTime) *
                boxHeight)
            (f.x.getD (bisectRight f.x boxStartTime) 0)

/-- `Person.compute_lesion_delay`: `target_area = negLog / riskIndex`
(`negLog` stands for `-log(1 - u)`), `cumulative_area = 0`,
`box_start_time = previous_lesion_onset_time`, then the walk. -/
def compute_lesion_delay (f : StepFunction ℚ)
    (riskIndex negLog lifespan now prevOnset : ℚ) : Except String (Option ℚ) :=
  compute_lesion_delay_go f (negLog / riskIndex) lifespan now
    (f.x.length + 1) 0 prevOnset

/-- Length of the part of `[l, r]` that lies inside `[a, b]`. -/
def boxLen (a b l r : ℚ) : ℚ := max 0 (min b r - max a l)

/-- Area under the step curve with knots `x` and heights `y` between `a`
and `b`: the sum over consecutive knot segments of height times overlap
length.  This is the specification-side meaning of "area under the
incidence curve". -/
def segAreas : List ℚ → List ℚ → ℚ → ℚ → ℚ
  | x1 :: x2 :: xs, h :: hs, a, b =>
      h * boxLen a b x1 x2 + segAreas (x2 :: xs) hs a b
  | _, _, _, _ => 0

/-- Area under a step function between `a` and `b`. -/
def areaBetween (f : StepFunction ℚ) (a b : ℚ) : ℚ := segAreas f.x f.y a b

/-! ## The driver (`run` in `crcsim/__main__.py`)

`cohort = csv.DictReader(input)` is a single-pass Python iterator: iterating
it yields its remaining rows and leaves it exhausted.  `run` iterates the
same `cohort` object twice — once in the `expected_lifespans` list
comprehension, then again in `for i, p in enumerate(cohort)`. -/

/-- Iterating a single-pass iterator to the end: the yielded elements and
the exhausted iterator. -/
def readAll {α : Type} (it : List α) : List α × List α := (it, [])

/-- `run` (minus file I/O): returns the drawn `expected_lifespans` and the
list of cohort rows the person loop actually simulated.  The per-row
lifespan draw is `compute_lifespan` with the row's death-rate table; the
row's draw is `rng i` (one `rng.random()` call per comprehension step).
The person loop body (constructing a `Person` with
`expected_lifespan=expected_lifespans[i]` and running its event loop) is
represented by which rows reach it: the loop re-iterates the `cohort`
iterator that the comprehension already exhausted. -/
def run (deathRate : ℕ → ℚ) (maxAge : ℕ) (rng : ℕ → ℚ)
    (cohortRows : List String) (npeople : ℕ) : List ℚ × List String :=
  let reader := cohortRows
  let step1 := readAll reader
  let expected_lifespans :=
    step1.1.enum.map fun ip => compute_lifespan deathRate maxAge (rng ip.1)
  let step2 := readAll step1.2
  let simulated := step2.1.take npeople
  (expected_lifespans, simulated)

/-! ## Lemmas and theorems -/

lemma insertEvent_eq (q : List Event) (e : Event) :
    insertEvent q e =
      q.takeWhile (fun f => decide (f.time ≤ e.time)) ++
        e :: q.dropWhile (fun f => decide (f.time ≤ e.time)) := by
  induction q with
  | nil => simp [insertEvent]
  | cons f rest ih =>
    by_cases h : e.time < f.time
    · have hf : ¬ f.time ≤ e.time := not_le.mpr h
      simp [insertEvent, h, List.takeWhile_cons, List.dropWhile_cons, hf]
    · have hf : f.time ≤ e.time := le_of_not_lt h
      simp [insertEvent, h, List.takeWhile_cons, List.dropWhile_cons, hf, ih]

lemma insertEvent_sorted {q : List Event} (e : Event)
    (hq : q.Pairwise (fun a b => a.time ≤ b.time)) :
    (insertEvent q e).Pairwise (fun a b => a.time ≤ b.time) := by
  induction q with
  | nil => simp [insertEvent]
  | cons f rest ih =>
    rcases List.pairwise_cons.mp hq with ⟨hf, hrest⟩
    by_cases h : e.time < f.time
    · simp only [insertEvent, if_pos h]
      refine List.pairwise_cons.mpr ⟨?_, List.pairwise_cons.mpr ⟨hf, hrest⟩⟩
      intro b hb
      rcases List.mem_cons.mp hb with rfl | hb
      · exact le_of_lt h
      · exact le_trans (le_of_lt h) (hf b hb)
    · simp only [insertEvent, if_neg h]
      refine List.pairwise_cons.mpr ⟨?_, ih hrest⟩
      intro b hb
      have hmem : b ∈ rest ∨ b = e := by
        have := hb
        rw [insertEvent_eq] at this
        rcases List.mem_append.mp this with h1 | h2
        · exact Or.inl ((List.takeWhile_sublist _).mem h1)
        · rcases List.mem_cons.mp h2 with rfl | h3
          · exact Or.inr rfl
          · exact Or.inl ((List.dropWhile_sublist _).mem h3)
      rcases hmem with hb' | rfl
      · exact hf b hb'
      · exact le_of_not_lt h

lemma insertEvent_time_lb {q : List Event} (e : Event) {t : ℚ}
    (hq : ∀ f ∈ q, t ≤ f.time) (he : t ≤ e.time) :
    ∀ f ∈ insertEvent q e, t ≤ f.time := by
  intro f hf
  rw [insertEvent_eq] at hf
  rcases List.mem_append.mp hf with h1 | h2
  · exact hq f ((List.takeWhile_sublist _).mem h1)
  · rcases List.mem_cons.mp h2 with rfl | h3
    · exact he
    · exact hq f ((List.dropWhile_sublist _).mem h3)

lemma schedStep_inv {st st' : Scheduler × List ℚ} {op : SchedOp}
    (hinv : SchedInv st) (hd : 0 ≤ op.delay)
    (hstep : schedStep st op = some st') :
    SchedInv st' ∧ st.1.time ≤ st'.1.time ∧
      (op.isAdd = true → st'.1.time = st.1.time) := by
  obtain ⟨hsort, hlb, hchain, hub⟩ := hinv
  cases op with
  | add m d =>
    simp only [schedStep, Scheduler.add_event] at hstep
    cases hstep
    refine ⟨⟨?_, ?_, hchain, hub⟩, le_refl _, fun _ => rfl⟩
    · exact insertEvent_sorted _ hsort
    · have hd' : (0 : ℚ) ≤ d := by simpa [SchedOp.delay] using hd
      exact insertEvent_time_lb _ hlb (le_add_of_nonneg_right hd')
  | consume =>
    simp only [schedStep, Scheduler.consume_next_event] at hstep
    cases hq : st.1.queue with
    | nil => rw [hq] at hstep; cases hstep
    | cons e rest =>
      rw [hq] at hstep
      cases hstep
      have hsort' := hq ▸ hsort
      rcases List.pairwise_cons.mp hsort' with ⟨he, hrest⟩
      have hte : st.1.time ≤ e.time := hlb e (by rw [hq]; exact List.mem_cons_self e rest)
      refine ⟨⟨hrest, ?_, ?_, ?_⟩, hte, fun h => nomatch h⟩
      · intro f hf; exact he f hf
      · exact List.Chain'.append hchain (List.chain'_singleton _)
          (by intro a ha b hb
              simp only [List.head?_cons, Option.mem_def, Option.some.injEq] at hb
              subst hb
              exact le_trans (hub a (List.mem_of_mem_getLast? ha)) hte)
      · intro t ht
        rcases List.mem_append.mp ht with h1 | h2
        · exact le_trans (hub t h1) hte
        · simp only [List.mem_singleton] at h2; subst h2; exact le_refl _

lemma schedRunFrom_inv {st : Scheduler × List ℚ} {ops : List SchedOp}
    (hinv : SchedInv st) (hd : ∀ op ∈ ops, 0 ≤ op.delay) :
    ∀ st', schedRunFrom st ops = some st' → SchedInv st' := by
  induction ops generalizing st with
  | nil => intro st' h; simp only [schedRunFrom] at h; cases h; exact hinv
  | cons op rest ih =>
    intro st' h
    simp only [schedRunFrom] at h
    cases hstep : schedStep st op with
    | none => rw [hstep] at h; cases h
    | some st1 =>
      rw [hstep] at h
      have h1 := schedStep_inv hinv (hd op (List.mem_cons_self _ _)) hstep
      exact ih h1.1 (fun o ho => hd o (List.mem_cons_of_mem _ ho)) st' h

lemma schedRun_inv {ops : List SchedOp}
    (hd : ∀ op ∈ ops, 0 ≤ op.delay) :
    ∀ st', schedRun ops = some st' → SchedInv st' := by
  apply schedRunFrom_inv _ hd
  refine ⟨List.Pairwise.nil, ?_, List.chain'_nil, ?_⟩ <;> simp [Scheduler.fresh]

lemma insertEvent_fifo (q : List Event) (e A : Event)
    (hsort : q.Pairwise (fun a b => a.time ≤ b.time))
    (hA : A ∈ q) (ht : A.time ≤ e.time) :
    ∃ pre post, insertEvent q e = pre ++ e :: post ∧ A ∈ pre := by
  induction q with
  | nil => cases hA
  | cons f rest ih =>
    rcases List.pairwise_cons.mp hsort with ⟨hf, hrest⟩
    by_cases h : e.time < f.time
    · exfalso
      rcases List.mem_cons.mp hA with rfl | hA'
      · exact absurd (lt_of_le_of_lt ht h) (lt_irrefl _)
      · exact absurd (lt_of_le_of_lt ht h) (not_lt.mpr (hf A hA'))
    · rcases List.mem_cons.mp hA with rfl | hA'
      · exact ⟨A :: rest.takeWhile (fun g => decide (g.time ≤ e.time)),
          rest.dropWhile (fun g => decide (g.time ≤ e.time)),
          by simp only [insertEvent, if_neg h, insertEvent_eq, List.cons_append],
          List.mem_cons_self _ _⟩
      · obtain ⟨pre', post', heq, hmem⟩ := ih hrest hA'
        exact ⟨f :: pre', post', by simp only [insertEvent, if_neg h, heq, List.cons_append],
          List.mem_cons_of_mem _ hmem⟩

/-- C3: on a scheduler whose queue is sorted (the invariant maintained by
`add_event`), a newly added event is placed after every queued event whose
time is at most the new event's time, so among equal firing times the
earlier-scheduled event is consumed first (consumption order is the queue
order); concretely, on a fresh scheduler, scheduling delays 4, 2, 2 with
messages "a", "b", "c" yields queue (= consumption) order "b", "c", "a" at
times 2, 2, 4 with clock 4 after the three consumes; and a newly scheduled
event's time is the clock at scheduling time plus its delay. -/
theorem add_event_fifo_tiebreak :
    (∀ (q : List Event) (e A : Event),
        q.Pairwise (fun a b => a.time ≤ b.time) → A ∈ q → A.time ≤ e.time →
        ∃ pre post, insertEvent q e = pre ++ e :: post ∧ A ∈ pre) ∧
    ((((Scheduler.fresh.add_event "a" 4).2.add_event "b" 2).2.add_event "c" 2).2.queue.map
        Event.message = ["b", "c", "a"] ∧
      (((Scheduler.fresh.add_event "a" 4).2.add_event "b" 2).2.add_event "c" 2).2.queue.map
        Event.time = [2, 2, 4] ∧
      schedRun [SchedOp.add "a" 4, SchedOp.add "b" 2, SchedOp.add "c" 2,
          SchedOp.consume, SchedOp.consume, SchedOp.consume] =
        some (⟨[], 4⟩, [2, 2, 4])) ∧
    (∀ (s : Scheduler) (msg : String) (d : ℚ), ((s.add_event msg d).1).time = s.time + d) :=
  ⟨insertEvent_fifo,
    ⟨of_decide_eq_true (by with_unfolding_all rfl),
      of_decide_eq_true (by with_unfolding_all rfl),
      of_decide_eq_true (by with_unfolding_all rfl)⟩,
    fun s msg d => rfl⟩

/-- Witness for C3: applying the tie-break part at the concrete sorted
queue `[{b, 2}]` and new event `{c, 2}`: the new event lands after the
existing equal-time event. -/
theorem add_event_fifo_tiebreak_witness :
    ∃ pre post,
      insertEvent [{ message := "b", time := 2 }] { message := "c", time := 2 } =
        pre ++ { message := "c", time := 2 } :: post ∧
        ({ message := "b", time := 2 } : Event) ∈ pre :=
  add_event_fifo_tiebreak.1 [{ message := "b", time := 2 }]
    { message := "c", time := 2 } { message := "b", time := 2 }
    (by decide) (by decide) (by decide)

/-- C4: for any interleaved program of `add_event` (with nonnegative delays)
and `consume_next_event` calls run from a fresh scheduler, the queue stays
sorted by nondecreasing event time, the consumed events' times are weakly
increasing, every queued event's time is at least the clock, and across any
single further operation the clock never decreases and is unchanged by an
`add_event`. -/
theorem scheduler_invariants (ops : List SchedOp)
    (hd : ∀ op ∈ ops, 0 ≤ op.delay) :
    (∀ s consumed, schedRun ops = some (s, consumed) →
        s.queue.Pairwise (fun a b => a.time ≤ b.time) ∧
          consumed.Chain' (· ≤ ·) ∧
          (∀ f ∈ s.queue, s.time ≤ f.time)) ∧
    (∀ st st' op, schedRun ops = some st → 0 ≤ op.delay →
        schedStep st op = some st' →
        st.1.time ≤ st'.1.time ∧ (op.isAdd = true → st'.1.time = st.1.time)) := by
  constructor
  · intro s consumed hrun
    obtain ⟨h1, h2, h3, _⟩ := schedRun_inv hd (s, consumed) hrun
    exact ⟨h1, h3, h2⟩
  · intro st st' op hrun hop hstep
    exact (schedStep_inv (schedRun_inv hd st hrun) hop hstep).2

/-- Witness for C4: the program add "a" 4; add "b" 2; consume, run from a
fresh scheduler, satisfies the stated invariants. -/
theorem scheduler_invariants_witness :
    ([⟨"a", 4, true⟩] : List Event).Pairwise (fun a b => a.time ≤ b.time) :=
  ((scheduler_invariants [SchedOp.add "a" 4, SchedOp.add "b" 2, SchedOp.consume]
      (by decide)).1 ⟨[⟨"a", 4, true⟩], 2⟩ [2]
      (of_decide_eq_true (by with_unfolding_all rfl))).1

lemma bisectRight_le_length (x : List ℚ) (q : ℚ) : bisectRight x q ≤ x.length :=
  (List.takeWhile_sublist _).length_le

lemma bisectRight_iff {x : List ℚ} (hx : x.Pairwise (· ≤ ·)) (q : ℚ) :
    ∀ i (h : i < x.length), (x.get ⟨i, h⟩ ≤ q ↔ i < bisectRight x q) := by
  induction x with
  | nil => intro i h; cases h
  | cons a t ih =>
    rcases List.pairwise_cons.mp hx with ⟨ha, ht⟩
    intro i h
    by_cases haq : a ≤ q
    · have hb : bisectRight (a :: t) q = bisectRight t q + 1 := by
        simp [bisectRight, List.takeWhile_cons, haq, Nat.add_comm]
      cases i with
      | zero => simpa [hb] using haq
      | succ n =>
        have hn : n < t.length := Nat.lt_of_succ_lt_succ h
        have := ih ht n hn
        simpa [hb, Nat.succ_lt_succ_iff] using this
    · have hb : bisectRight (a :: t) q = 0 := by
        simp [bisectRight, List.takeWhile_cons, haq]
      cases i with
      | zero => simpa [hb] using haq
      | succ n =>
        have hn : n < t.length := Nat.lt_of_succ_lt_succ h
        rw [hb]
        simp only [Nat.not_lt_zero, iff_false]
        intro hle
        exact haq (le_trans (ha _ (List.get_mem t n hn)) hle)

/-- C5: for a `StepFunction` built from equal-length lists with `x` strictly
increasing, evaluation below the first knot raises; at or above the first
knot it returns `y[i]` for the largest `i` with `x[i] ≤ q`; and construction
succeeds exactly when the lengths match and `x` is sorted ascending. -/
theorem stepFunction_spec {α : Type} [Inhabited α] (x0 : ℚ) (xs : List ℚ) (y : List α)
    (hlen : (x0 :: xs).length = y.length)
    (hx : (x0 :: xs).Pairwise (· < ·)) :
    (∀ q : ℚ, q < x0 →
        (StepFunction.mk (x0 :: xs) y).eval q =
          .error "value is smaller than the smallest defined x value") ∧
    (∀ q : ℚ, x0 ≤ q →
        ∃ (i : ℕ) (hi : i < (x0 :: xs).length) (hi' : i < y.length),
          (StepFunction.mk (x0 :: xs) y).eval q = .ok (y.get ⟨i, hi'⟩) ∧
            (x0 :: xs).get ⟨i, hi⟩ ≤ q ∧
            ∀ j (hj : j < (x0 :: xs).length), (x0 :: xs).get ⟨j, hj⟩ ≤ q → j ≤ i) ∧
    (∀ (x' : List ℚ) (y' : List α),
        (∃ f, StepFunction.make x' y' = .ok f) ↔
          x'.length = y'.length ∧ x'.Pairwise (· ≤ ·)) := by
  have hx' : (x0 :: xs).Pairwise (· ≤ ·) := hx.imp le_of_lt
  refine ⟨?_, ?_, ?_⟩
  · intro q hq
    have h0 : ¬ (x0 :: xs).get ⟨0, Nat.succ_pos _⟩ ≤ q := not_le.mpr hq
    have hb : ¬ 0 < bisectRight (x0 :: xs) q := fun hlt =>
      h0 ((bisectRight_iff hx' q 0 (Nat.succ_pos _)).mpr hlt)
    have hb0 : bisectRight (x0 :: xs) q = 0 := Nat.eq_zero_of_not_pos hb
    simp [StepFunction.eval, hb0]
  · intro q hq
    have h0 : (x0 :: xs).get ⟨0, Nat.succ_pos _⟩ ≤ q := hq
    have hb0 : 0 < bisectRight (x0 :: xs) q :=
      (bisectRight_iff hx' q 0 (Nat.succ_pos _)).mp h0
    have hble : bisectRight (x0 :: xs) q ≤ (x0 :: xs).length :=
      bisectRight_le_length _ _
    refine ⟨bisectRight (x0 :: xs) q - 1, ?_, ?_, ?_, ?_, ?_⟩
    · exact lt_of_lt_of_le (Nat.sub_lt hb0 Nat.one_pos) hble
    · exact lt_of_lt_of_le (Nat.sub_lt hb0 Nat.one_pos) (hlen ▸ hble)
    · have hne : bisectRight (x0 :: xs) q ≠ 0 := Nat.pos_iff_ne_zero.mp hb0
      simp only [StepFunction.eval, if_neg hne]
      congr 1
      exact List.getD_eq_get y default _
    · exact (bisectRight_iff hx' q _ _).mpr (Nat.sub_lt hb0 Nat.one_pos)
    · intro j hj hjq
      have := (bisectRight_iff hx' q j hj).mp hjq
      omega
  · intro x' y'
    constructor
    · rintro ⟨f, hf⟩
      by_cases h1 : x'.length ≠ y'.length
      · simp [StepFunction.make, h1] at hf
      · by_cases h2 : ¬ x'.Pairwise (· ≤ ·)
        · simp [StepFunction.make, h1, h2] at hf
        · exact ⟨not_not.mp (by simpa using h1), not_not.mp h2⟩
    · rintro ⟨h1, h2⟩
      exact ⟨⟨x', y'⟩, by simp [StepFunction.make, h1, h2]⟩

/-- Witness for C5: `x = [1, 2, 3]`, `y = [10, 20, 30]`, evaluated at
`q = 0` (below the first knot): the step function raises. -/
theorem stepFunction_spec_witness :
    (StepFunction.mk [1, 2, 3] ([10, 20, 30] : List ℚ)).eval 0 =
      .error "value is smaller than the smallest defined x value" :=
  (stepFunction_spec 1 [2, 3] [10, 20, 30] (by decide)
      (by norm_num)).1 0 (by norm_num)

lemma lifespanSearch_zero (deathRate : ℕ → ℚ) (u : ℚ) (hu : 0 ≤ u) :
    ∀ (l : List ℕ) (cs : ℚ), (∀ i ∈ l, deathRate i = 0) →
      lifespanSearch deathRate u l cs 0 = none := by
  intro l
  induction l with
  | nil => intro cs _; rfl
  | cons i rest ih =>
    intro cs h
    have h0 : deathRate i = 0 := h i (List.mem_cons_self _ _)
    simp only [lifespanSearch, h0, zero_mul, add_zero]
    rw [if_neg (not_lt.mpr hu)]
    exact ih _ (fun j hj => h j (List.mem_cons_of_mem _ hj))

/-- C7: the lifespan sampler's result never exceeds `max_age`; with an
identically-zero death-rate table it returns exactly `max_age`; and whenever
the search loop fails to find an age with `u < cum_prob_death`, the result
is `max_age`. -/
theorem compute_lifespan_clamped (deathRate : ℕ → ℚ) (maxAge : ℕ) (u : ℚ)
    (hu : 0 ≤ u ∧ u < 1) :
    compute_lifespan deathRate maxAge u ≤ (maxAge : ℚ) ∧
      ((∀ i ≤ maxAge, deathRate i = 0) →
        compute_lifespan deathRate maxAge u = (maxAge : ℚ)) ∧
      (lifespanSearch deathRate u (List.range (maxAge + 1)) 1 0 = none →
        compute_lifespan deathRate maxAge u = (maxAge : ℚ)) := by
  have hnone : lifespanSearch deathRate u (List.range (maxAge + 1)) 1 0 = none →
      compute_lifespan deathRate maxAge u = (maxAge : ℚ) := by
    intro h
    simp only [compute_lifespan, h]
    rw [if_neg (lt_irrefl _)]
  refine ⟨?_, ?_, hnone⟩
  · simp only [compute_lifespan]
    split
    · exact le_refl _
    · exact le_of_not_lt (by assumption)
  · intro hz
    refine hnone (lifespanSearch_zero deathRate u hu.1 _ 1 ?_)
    intro i hi
    exact hz i (Nat.lt_succ_iff.mp (List.mem_range.mp hi))

/-- Witness for C7: with the all-zero table, `max_age = 3`, and draw 0, the
lifespan equals 3. -/
theorem compute_lifespan_clamped_witness :
    compute_lifespan (fun _ => 0) 3 0 = (3 : ℚ) :=
  (compute_lifespan_clamped (fun _ => 0) 3 0 ⟨le_refl 0, by norm_num⟩).2.1
    (fun _ _ => rfl)

lemma routineComplianceProb_spec (P : Params) (nc : Bool) (rt : Option String)
    (h : List Bool) (t : ℚ) :
    ((routineComplianceProb P nc rt h t).2 = true → h ≠ []) ∧
      (routineComplianceProb P nc rt h t).1 ≠ .error "IndexError: history empty" := by
  unfold routineComplianceProb
  by_cases h1 : nc = true
  · simp only [if_pos h1]
    exact ⟨(fun hf => nomatch hf), by simp⟩
  · simp only [if_neg h1]
    by_cases h2 : (P.use_conditional_compliance = true ∧ h = []) ∨
        P.use_conditional_compliance = false
    · simp only [if_pos h2]
      by_cases h3 : P.never_compliant_rate < 1
      · simp only [if_pos h3]
        exact ⟨(fun hf => nomatch hf), by simp⟩
      · simp only [if_neg h3]
        exact ⟨(fun hf => nomatch hf), by simp⟩
    · simp only [if_neg h2]
      push_neg at h2
      have huse : P.use_conditional_compliance = true :=
        Bool.eq_true_of_ne_false h2.2
      have hne : h ≠ [] := h2.1 huse
      have hlast : h.getLast? ≠ none := fun hn =>
        hne (List.getLast?_eq_none_iff.mp hn)
      cases hlk : lookupTest P rt with
      | error e =>
        refine ⟨fun _ => hne, ?_⟩
        have he : e = "KeyError: None" ∨ e = "KeyError: missing test" := by
          cases rt with
          | none =>
            simp only [lookupTest] at hlk
            exact Or.inl (by injection hlk with hh; exact hh.symm)
          | some n =>
            simp only [lookupTest] at hlk
            cases hf : P.tests.find? (fun p => p.1 = n) with
            | some p => rw [hf] at hlk; cases hlk
            | none => rw [hf] at hlk
                      exact Or.inr (by injection hlk with hh; exact hh.symm)
        rcases he with rfl | rfl <;> simp
      | ok tp =>
        dsimp only
        split_ifs with hy
        · exact ⟨fun _ => hne, by simp⟩
        · cases hg : h.getLast? with
          | none => exact absurd hg hlast
          | some b =>
            dsimp only
            cases hr : (if b then tp.compliance_rate_given_prev_compliant
                else tp.compliance_rate_given_not_prev_compliant).get?
                (pyInt (t - tp.routine_start)).toNat with
            | none => exact ⟨fun _ => hne, by simp⟩
            | some r => exact ⟨fun _ => hne, by simp⟩

/-- C8: `is_compliant` appends exactly one boolean to
`routine_compliance_history` when called in ROUTINE state (or DIAGNOSTIC
with `routine_is_diagnostic`) on a non-`None` test and the call returns;
calls in plain-DIAGNOSTIC or SURVEILLANCE states leave the history
untouched; the conditional-compliance branch (which reads
`routine_compliance_history[-1]`) is entered only with a nonempty history,
so its `IndexError` arm is dead code. -/
theorem is_compliant_history_bookkeeping (P : Params) (ts : PersonTestingState)
    (rid nc : Bool) (rt : Option String) (history : List Bool) (time : ℚ)
    (test : Option String) (rng : ℕ → ℚ) (k : ℕ) :
    (test ≠ none → ts = .ROUTINE ∨ (ts = .DIAGNOSTIC ∧ rid = true) →
      ∀ b, (is_compliant P ts rid nc rt history time test rng k).result = .ok b →
        (is_compliant P ts rid nc rt history time test rng k).history =
          history ++ [b]) ∧
    ((ts = .DIAGNOSTIC ∧ rid = false) ∨ ts = .SURVEILLANCE →
      (is_compliant P ts rid nc rt history time test rng k).history = history) ∧
    ((is_compliant P ts rid nc rt history time test rng k).usedConditional = true →
      history ≠ []) ∧
    (is_compliant P ts rid nc rt history time test rng k).result ≠
      .error "IndexError: history empty" := by
  unfold is_compliant
  by_cases htest : test = none
  · rw [if_pos htest]
    exact ⟨fun hne => absurd htest hne, fun _ => rfl,
      (fun hf => nomatch hf), (fun hc => nomatch hc)⟩
  · rw [if_neg htest]
    by_cases h2 : ts = PersonTestingState.DIAGNOSTIC ∧ rid = false
    · rw [if_pos h2]
      refine ⟨?_, fun _ => rfl, (fun hf => nomatch hf), (fun hc => nomatch hc)⟩
      rintro _ (hR | ⟨hD, hrid⟩) b _
      · rw [hR] at h2; exact nomatch h2.1
      · rw [h2.2] at hrid; exact nomatch hrid
    · rw [if_neg h2]
      by_cases h3 : ts = PersonTestingState.SURVEILLANCE
      · rw [if_pos h3]
        refine ⟨?_, fun _ => rfl, (fun hf => nomatch hf), (fun hc => nomatch hc)⟩
        rintro _ (hR | ⟨hD, _⟩) b _
        · rw [hR] at h3; exact nomatch h3
        · rw [hD] at h3; exact nomatch h3
      · rw [if_neg h3]
        by_cases h4 : ts = PersonTestingState.ROUTINE ∨
            (ts = PersonTestingState.DIAGNOSTIC ∧ rid = true)
        · rw [if_pos h4]
          have hspec := routineComplianceProb_spec P nc rt history time
          rcases hpr : routineComplianceProb P nc rt history time with ⟨res, uc⟩
          rw [hpr] at hspec
          cases res with
          | error e =>
            refine ⟨?_, ?_, ?_, ?_⟩
            · dsimp only
              exact fun _ _ b hb => nomatch hb
            · rintro (hDf | hS)
              · exact absurd hDf h2
              · exact absurd hS h3
            · dsimp only
              exact fun hu => hspec.1 hu
            · dsimp only
              simpa using hspec.2
          | ok prob =>
            refine ⟨?_, ?_, ?_, ?_⟩
            · dsimp only
              intro _ _ b hb
              have hb' : decide (rng k < prob) = b := by injection hb
              rw [hb']
            · rintro (hDf | hS)
              · exact absurd hDf h2
              · exact absurd hS h3
            · dsimp only
              exact fun hu => hspec.1 hu
            · dsimp only
              exact fun hc => nomatch hc
        · rw [if_neg h4]
          refine ⟨fun _ hts b hb => absurd hts h4, ?_,
            (fun hf => nomatch hf), ?_⟩
          · rintro (hDf | hS)
            · exact absurd hDf h2
            · exact absurd hS h3
          · intro hc
            injection hc with hc'
            exact absurd hc'.symm (by decide)

/-- Witness for C8: a ROUTINE-state call on test `"FIT"` with empty history,
unconditional compliance (rate 1, never-compliant rate 0): the call returns
`True` and the history becomes `[true]`. -/
theorem is_compliant_history_bookkeeping_witness :
    (is_compliant
        { tests := [], routine_tests := [], diagnostic_test := none,
          surveillance_test := none, use_variable_routine_test := false,
          routine_testing_year := [], routine_test_by_year := [],
          variable_routine_test := ⟨[], []⟩, use_conditional_compliance := false,
          initial_compliance_rate := 1, diagnostic_compliance_rate := 1,
          surveillance_compliance_rate := 1, never_compliant_rate := 0,
          duration_screen_skip_testing := 10, surveillance_end_age := 85,
          surveillance_freq_polyp_none := 10, surveillance_freq_polyp_mild := 5,
          surveillance_freq_polyp_moderate := 3, surveillance_freq_polyp_severe := 1,
          surveillance_freq_cancer_first := 1, surveillance_freq_cancer_second := 3,
          surveillance_freq_cancer_rest := 5, polypectomy_proportion_lethal := 0,
          max_ongoing_treatments := 5 }
        PersonTestingState.ROUTINE false false none [] 50 (some "FIT")
        (fun _ => 0) 0).history = [] ++ [true] :=
  (is_compliant_history_bookkeeping _ PersonTestingState.ROUTINE false false
      none [] 50 (some "FIT") (fun _ => 0) 0).1
    (by simp) (Or.inl rfl) true (by with_unfolding_all rfl)

lemma survScan_congr_observables (P : Params) (test : Option String) (rng : ℕ → ℚ) :
    ∀ (lesions : List (ℤ × LesionState)) (acc1 acc2 : ScanResult),
      acc1.counts = acc2.counts → acc1.cursor = acc2.cursor →
      acc1.pathologies = acc2.pathologies →
      (survScan P test rng lesions acc1).map ScanResult.observables =
        (survScan P test rng lesions acc2).map ScanResult.observables := by
  intro lesions
  induction lesions with
  | nil =>
    intro acc1 acc2 hc hk hp
    simp [survScan, Except.map, ScanResult.observables, hc, hk, hp]
  | cons hd_pair rest ih =>
    rcases hd_pair with ⟨j, a⟩
    intro acc1 acc2 hc hk hp
    rcases hd : lesion_is_detected P a test rng acc1.cursor with ⟨r, k'⟩
    have hd2 : lesion_is_detected P a test rng acc2.cursor = (r, k') := by
      rw [← hk]; exact hd
    simp only [survScan, hd, hd2]
    cases r with
    | error e => rfl
    | ok b =>
      cases b with
      | false => exact ih _ _ hc (by simp) hp
      | true =>
        cases a
        case UNINITIALIZED => rfl
        case SMALL_POLYP => exact ih _ _ (by simp [hc]) (by simp) (by simp [hp])
        case MEDIUM_POLYP => exact ih _ _ (by simp [hc]) (by simp) (by simp [hp])
        case LARGE_POLYP => exact ih _ _ (by simp [hc]) (by simp) (by simp [hp])
        case PRECLINICAL_STAGE1 => exact ih _ _ (by simp [hc]) (by simp) (by simp [hp])
        case PRECLINICAL_STAGE2 => exact ih _ _ (by simp [hc]) (by simp) (by simp [hp])
        case PRECLINICAL_STAGE3 => exact ih _ _ (by simp [hc]) (by simp) (by simp [hp])
        case PRECLINICAL_STAGE4 => exact ih _ _ (by simp [hc]) (by simp) (by simp [hp])
        case CLINICAL_STAGE1 => exact ih _ _ hc hk hp
        case CLINICAL_STAGE2 => exact ih _ _ hc hk hp
        case CLINICAL_STAGE3 => exact ih _ _ hc hk hp
        case CLINICAL_STAGE4 => exact ih _ _ hc hk hp
        case REMOVED => rfl
        case DEAD => rfl

/-- C9: a compliant diagnostic test whose per-lesion loop meets a
CLINICAL_STAGE lesion raises `ValueError` (clinical lesions always report
detected, and the diagnostic loop has no arm for them), whereas the
surveillance loop treats the same lesion as a no-op for everything the test
outcome depends on: removing it from the lesion list leaves the scan
observables — counters, random cursor, pathology records, and
success/failure — unchanged (so it is not counted toward detected lesions,
polyps, or cancers, does not change the outcome message computed from the
counters, and raises no error). -/
theorem diagnostic_surveillance_clinical_asymmetry :
    (∀ (P : Params) (n : String) (tp : TestParams)
        (lesions : List (ℤ × LesionState)) (rng : ℕ → ℚ) (acc : ScanResult)
        (idc : ℤ) (s : LesionState),
        lookupTest P (some n) = .ok tp → (idc, s) ∈ lesions →
        s.isClinical = true →
        ∃ e, diagScan P (some n) rng lesions acc = .error e) ∧
    (∀ (P : Params) (n : String) (tp : TestParams)
        (pre post : List (ℤ × LesionState)) (rng : ℕ → ℚ) (acc : ScanResult)
        (idc : ℤ) (s : LesionState),
        lookupTest P (some n) = .ok tp → s.isClinical = true →
        (survScan P (some n) rng (pre ++ (idc, s) :: post) acc).map
            ScanResult.observables =
          (survScan P (some n) rng (pre ++ post) acc).map
            ScanResult.observables) := by
  constructor
  · intro P n tp lesions rng
    induction lesions with
    | nil => intro acc idc s _ hs _; cases hs
    | cons hd_pair rest ih =>
      rcases hd_pair with ⟨j, a⟩
      intro acc idc s hlk hs hclin
      rcases List.mem_cons.mp hs with heq | hs'
      · cases heq
        cases a <;> simp [LesionState.isClinical] at hclin <;>
          exact ⟨"ValueError: Unexpected lesion state",
            by simp [diagScan, lesion_is_detected, hlk]⟩
      · rcases hd : lesion_is_detected P a (some n) rng acc.cursor with ⟨r, k'⟩
        simp only [diagScan, hd]
        cases r with
        | error e => exact ⟨e, rfl⟩
        | ok b =>
          cases b with
          | false => exact ih _ idc s hlk hs' hclin
          | true =>
            cases a
            case UNINITIALIZED => exact ⟨_, rfl⟩
            case SMALL_POLYP => exact ih _ idc s hlk hs' hclin
            case MEDIUM_POLYP => exact ih _ idc s hlk hs' hclin
            case LARGE_POLYP => exact ih _ idc s hlk hs' hclin
            case PRECLINICAL_STAGE1 => exact ih _ idc s hlk hs' hclin
            case PRECLINICAL_STAGE2 => exact ih _ idc s hlk hs' hclin
            case PRECLINICAL_STAGE3 => exact ih _ idc s hlk hs' hclin
            case PRECLINICAL_STAGE4 => exact ih _ idc s hlk hs' hclin
            case CLINICAL_STAGE1 => exact ⟨_, rfl⟩
            case CLINICAL_STAGE2 => exact ⟨_, rfl⟩
            case CLINICAL_STAGE3 => exact ⟨_, rfl⟩
            case CLINICAL_STAGE4 => exact ⟨_, rfl⟩
            case REMOVED => exact ⟨_, rfl⟩
            case DEAD => exact ⟨_, rfl⟩
  · intro P n tp pre post rng
    induction pre with
    | nil =>
      intro acc idc s hlk hclin
      have hstep : survScan P (some n) rng ((idc, s) :: post) acc =
          survScan P (some n) rng post
            { acc with detected := acc.detected ++ [idc] } := by
        cases s <;> simp [LesionState.isClinical] at hclin <;>
          simp [survScan, lesion_is_detected, hlk]
      rw [List.nil_append, List.nil_append, hstep]
      exact survScan_congr_observables P (some n) rng post _ _ rfl rfl rfl
    | cons hd_pair pre' ih =>
      rcases hd_pair with ⟨j, a⟩
      intro acc idc s hlk hclin
      rcases hd : lesion_is_detected P a (some n) rng acc.cursor with ⟨r, k'⟩
      simp only [List.cons_append, survScan, hd]
      cases r with
      | error e => rfl
      | ok b =>
        cases b with
        | false => exact ih _ idc s hlk hclin
        | true =>
          cases a
          case UNINITIALIZED => rfl
          case SMALL_POLYP => exact ih _ idc s hlk hclin
          case MEDIUM_POLYP => exact ih _ idc s hlk hclin
          case LARGE_POLYP => exact ih _ idc s hlk hclin
          case PRECLINICAL_STAGE1 => exact ih _ idc s hlk hclin
          case PRECLINICAL_STAGE2 => exact ih _ idc s hlk hclin
          case PRECLINICAL_STAGE3 => exact ih _ idc s hlk hclin
          case PRECLINICAL_STAGE4 => exact ih _ idc s hlk hclin
          case CLINICAL_STAGE1 => exact ih _ idc s hlk hclin
          case CLINICAL_STAGE2 => exact ih _ idc s hlk hclin
          case CLINICAL_STAGE3 => exact ih _ idc s hlk hclin
          case CLINICAL_STAGE4 => exact ih _ idc s hlk hclin
          case REMOVED => rfl
          case DEAD => rfl

set_option maxRecDepth 100000 in
/-- C2 (counterexample): in the S5 scenario exactly as claimed — the first
11 testing years mapped to Colonoscopy — the event log does NOT contain
exactly 1 Colonoscopy `test_performed` record: age 60 still maps to
Colonoscopy (11 entries cover ages 50-60) and the person is due again at 60
(gap 10 ≥ `routine_freq` 10), so a second colonoscopy is performed. -/
theorem variable_routine_schedule_counterexample :
    scenarioRun.map (fun p => (testPerformedTimes p.1.log "Colonoscopy").length)
      ≠ .ok 1 := by
  have h : scenarioRun.map
      (fun p => (testPerformedTimes p.1.log "Colonoscopy").length) = .ok 2 := by
    with_unfolding_all rfl
  rw [h]
  intro hc
  injection hc with hc'
  exact absurd hc' (by decide)

set_option maxRecDepth 100000 in
/-- C2 (amended): in the S5 scenario with the 11/15 Colonoscopy/FIT split,
the full simulation finishes and its event log contains exactly 2
Colonoscopy `test_performed` records (at times 50 and 60) and exactly 6 FIT
`test_performed` records (at ages 70 through 75). -/
theorem variable_routine_schedule :
    scenarioRun.map (fun p =>
        (p.2, testPerformedTimes p.1.log "Colonoscopy",
          testPerformedTimes p.1.log "FIT")) =
      .ok (true, [50, 60], [70, 71, 72, 73, 74, 75]) := by
  with_unfolding_all rfl

lemma runIsCompliant_none (w : World) (P : Params) (rng : ℕ → ℚ) :
    w.runIsCompliant P rng none = (.ok false, w) := by
  unfold World.runIsCompliant is_compliant
  rw [if_pos rfl]

/-- C10: a `None` test is refused by every guard: `is_compliant` returns
`False` without touching the history or drawing; `is_false_positive`
returns `False` without drawing; `Lesion.is_detected` returns `False`
without drawing; and a routine test round with `routine_test = None` adds
no `test_performed` record to the log. -/
theorem none_test_guards (P : Params) (ts : PersonTestingState)
    (rid nc : Bool) (rt : Option String) (history : List Bool) (time : ℚ)
    (rng : ℕ → ℚ) (k : ℕ) (s : LesionState) (w w' : World) :
    is_compliant P ts rid nc rt history time none rng k =
      ⟨.ok false, history, k, false⟩ ∧
    is_false_positive P none rng k = (.ok false, k) ∧
    lesion_is_detected P s none rng k = (.ok false, k) ∧
    (w.person.routineTest = none → test_routine P rng w = .ok w' →
      countTestPerformed w'.log = countTestPerformed w.log) := by
  refine ⟨?_, ?_, ?_, ?_⟩
  · unfold is_compliant; rw [if_pos rfl]
  · unfold is_false_positive; rw [if_pos rfl]
  · unfold lesion_is_detected; rw [if_pos rfl]
  · intro hrt hrun
    unfold test_routine at hrun
    by_cases hguard : w.person.testingState = PersonTestingState.ROUTINE ∧
        w.person.diseaseState ∉ ([.CLINICAL_STAGE1, .CLINICAL_STAGE2,
          .CLINICAL_STAGE3, .CLINICAL_STAGE4, .DEAD] : List PersonDiseaseState)
    · rw [if_pos hguard] at hrun
      by_cases heq : w.person.routineTest = w.person.diagnosticTest
      · rw [if_pos heq] at hrun
        injection hrun with hw'
        rw [← hw']
        rfl
      · rw [if_neg heq, hrt, runIsCompliant_none] at hrun
        dsimp only at hrun
        rw [hrt] at hrun
        injection hrun with hw'
        rw [← hw']
        simp [countTestPerformed, World.logRec, List.filter_append]
    · rw [if_neg hguard] at hrun
      injection hrun with hw'
      rw [← hw']

/-- Witness for C10: a ROUTINE-state healthy person whose routine test came
out `None` (diagnostic test Colonoscopy): the routine test round merely
logs a noncompliance record, so the `test_performed` count stays 0. -/
theorem none_test_guards_witness :
    countTestPerformed
        ((wRoutineNone.logRec (.noncompliance none TestingRole.ROUTINE 0)).log) =
      countTestPerformed wRoutineNone.log :=
  (none_test_guards scenarioParams PersonTestingState.ROUTINE false false none
      [] 0 scenarioRng 0 LesionState.SMALL_POLYP wRoutineNone
      (wRoutineNone.logRec (.noncompliance none TestingRole.ROUTINE 0))).2.2.2
    rfl (by with_unfolding_all rfl)

/-- Witness for C9: with the S5 parameters, a FIT scan over the single
lesion list `[(0, CLINICAL_STAGE1)]`: the diagnostic per-lesion loop raises,
while the surveillance per-lesion loop produces the same observables as the
scan over the empty lesion list. -/
theorem diagnostic_surveillance_clinical_asymmetry_witness :
    (∃ e, diagScan scenarioParams (some "FIT") scenarioRng
        [((0 : ℤ), LesionState.CLINICAL_STAGE1)] (ScanResult.start 0) = .error e) ∧
    (survScan scenarioParams (some "FIT") scenarioRng
        [((0 : ℤ), LesionState.CLINICAL_STAGE1)] (ScanResult.start 0)).map
        ScanResult.observables =
      (survScan scenarioParams (some "FIT") scenarioRng []
        (ScanResult.start 0)).map ScanResult.observables :=
  ⟨diagnostic_surveillance_clinical_asymmetry.1 scenarioParams "FIT" fitTest
      [((0 : ℤ), LesionState.CLINICAL_STAGE1)] scenarioRng (ScanResult.start 0) 0
      LesionState.CLINICAL_STAGE1 (by with_unfolding_all rfl)
      (List.mem_singleton.mpr rfl) rfl,
    diagnostic_surveillance_clinical_asymmetry.2 scenarioParams "FIT" fitTest
      [] [] scenarioRng (ScanResult.start 0) 0 LesionState.CLINICAL_STAGE1
      (by with_unfolding_all rfl) rfl⟩

lemma getD_eq_get_q : ∀ (l : List ℚ) (i : ℕ) (h : i < l.length) (d : ℚ),
    l.getD i d = l.get ⟨i, h⟩
  | _ :: _, 0, _, _ => rfl
  | _ :: t, i + 1, h, d => getD_eq_get_q t i (by simpa using h) d

lemma bisect_eq_length_imp (x : List ℚ) (bs : ℚ)
    (h : bisectRight x bs = x.length) : ∀ v ∈ x, v ≤ bs := by
  have hpfx : x.takeWhile (fun a => decide (a ≤ bs)) <+: x := List.takeWhile_prefix _
  have hx : x.takeWhile (fun a => decide (a ≤ bs)) = x := hpfx.eq_of_length h
  intro v hv
  have hv' : v ∈ x.takeWhile (fun a => decide (a ≤ bs)) := by rw [hx]; exact hv
  simpa using List.mem_takeWhile_imp hv'

lemma le_getLast_sorted : ∀ (x : List ℚ), x.Pairwise (· ≤ ·) →
    ∀ xl, x.getLast? = some xl → ∀ v ∈ x, v ≤ xl := by
  intro x
  induction x with
  | nil => intro _ xl h; cases h
  | cons a rest ih =>
    intro hsort xl hlast v hv
    rcases List.pairwise_cons.mp hsort with ⟨ha, hsort'⟩
    cases rest with
    | nil =>
      have hxa : xl = a := by simpa using hlast.symm
      rcases List.mem_singleton.mp hv with rfl
      exact le_of_eq hxa.symm
    | cons b t =>
      have hlast' : (b :: t).getLast? = some xl := hlast
      rcases List.mem_cons.mp hv with rfl | hv'
      · exact ha xl (List.mem_of_mem_getLast? hlast')
      · exact ih hsort' xl hlast' v hv'

lemma boxLen_nonneg (a b l r : ℚ) : 0 ≤ boxLen a b l r := le_max_left _ _

lemma boxLen_of_le (a b l r : ℚ) (h : b ≤ a) : boxLen a b l r = 0 := by
  have h1 : min b r ≤ b := min_le_left _ _
  have h2 : a ≤ max a l := le_max_left _ _
  exact max_eq_left (by linarith)

lemma boxLen_split (a b c l r : ℚ) (hab : a ≤ b) (hbc : b ≤ c) :
    boxLen a c l r = boxLen a b l r + boxLen b c l r := by
  unfold boxLen
  rcases le_total b l with hbl | hlb
  · have h1 : min b r ≤ l := le_trans (min_le_left _ _) hbl
    rw [max_eq_right (le_trans hab hbl), max_eq_right hbl,
      max_eq_left (by linarith : min b r - l ≤ 0), zero_add]
  · rcases le_total r b with hrb | hbr
    · have h3 : r ≤ max b l := le_trans hrb (le_max_left _ _)
      rw [min_eq_right hrb, min_eq_right (le_trans hrb hbc),
        max_eq_left (by linarith : r - max b l ≤ 0), add_zero]
    · have hal : max a l ≤ b := max_le hab hlb
      have hbm : b ≤ min c r := le_min hbc hbr
      rw [min_eq_left hbr, max_eq_left hlb,
        max_eq_right (by linarith : (0:ℚ) ≤ b - max a l),
        max_eq_right (by linarith : (0:ℚ) ≤ min c r - b),
        max_eq_right (by linarith : (0:ℚ) ≤ min c r - max a l)]
      ring

lemma segAreas_nil_left (y : List ℚ) (a b : ℚ) : segAreas [] y a b = 0 := rfl

lemma segAreas_single (x1 : ℚ) (y : List ℚ) (a b : ℚ) :
    segAreas [x1] y a b = 0 := by cases y <;> rfl

lemma segAreas_nil_right (x : List ℚ) (a b : ℚ) : segAreas x [] a b = 0 := by
  cases x with
  | nil => rfl
  | cons x1 t => cases t <;> rfl

lemma segAreas_cons (x1 x2 : ℚ) (xs : List ℚ) (h : ℚ) (hs : List ℚ)
    (a b : ℚ) : segAreas (x1 :: x2 :: xs) (h :: hs) a b =
      h * boxLen a b x1 x2 + segAreas (x2 :: xs) hs a b := rfl

lemma segAreas_nonneg : ∀ (x y : List ℚ) (a b : ℚ), (∀ r ∈ y, 0 ≤ r) →
    0 ≤ segAreas x y a b := by
  intro x
  induction x with
  | nil => intro y a b _; rw [segAreas_nil_left]
  | cons x1 rest ih =>
    intro y a b hy
    cases rest with
    | nil => rw [segAreas_single]
    | cons x2 xs =>
      cases y with
      | nil => rw [segAreas_nil_right]
      | cons h hs =>
        rw [segAreas_cons]
        have h1 : 0 ≤ h := hy h (List.mem_cons_self _ _)
        have h2 : 0 ≤ segAreas (x2 :: xs) hs a b :=
          ih hs a b (fun r hr => hy r (List.mem_cons_of_mem _ hr))
        have h3 := boxLen_nonneg a b x1 x2
        nlinarith

lemma segAreas_of_le : ∀ (x y : List ℚ) (a b : ℚ), b ≤ a →
    segAreas x y a b = 0 := by
  intro x
  induction x with
  | nil => intro y a b _; rw [segAreas_nil_left]
  | cons x1 rest ih =>
    intro y a b hba
    cases rest with
    | nil => rw [segAreas_single]
    | cons x2 xs =>
      cases y with
      | nil => rw [segAreas_nil_right]
      | cons h hs =>
        rw [segAreas_cons, boxLen_of_le a b x1 x2 hba, ih hs a b hba,
          mul_zero, add_zero]

lemma segAreas_split : ∀ (x y : List ℚ) (a b c : ℚ), a ≤ b → b ≤ c →
    segAreas x y a c = segAreas x y a b + segAreas x y b c := by
  intro x
  induction x with
  | nil => intro y a b c _ _; simp [segAreas_nil_left]
  | cons x1 rest ih =>
    intro y a b c hab hbc
    cases rest with
    | nil => simp [segAreas_single]
    | cons x2 xs =>
      cases y with
      | nil => simp [segAreas_nil_right]
      | cons h hs =>
        rw [segAreas_cons, segAreas_cons, segAreas_cons,
          boxLen_split a b c x1 x2 hab hbc, ih hs a b c hab hbc]
        ring

lemma segAreas_right_le : ∀ (x y : List ℚ) (a b : ℚ), (∀ v ∈ x, b ≤ v) →
    segAreas x y a b = 0 := by
  intro x
  induction x with
  | nil => intro y a b _; rw [segAreas_nil_left]
  | cons x1 rest ih =>
    intro y a b hv
    cases rest with
    | nil => rw [segAreas_single]
    | cons x2 xs =>
      cases y with
      | nil => rw [segAreas_nil_right]
      | cons h hs =>
        rw [segAreas_cons]
        have hbox : boxLen a b x1 x2 = 0 := by
          have h1 : min b x2 ≤ b := min_le_left _ _
          have h2 : b ≤ x1 := hv x1 (List.mem_cons_self _ _)
          have h3 : x1 ≤ max a x1 := le_max_right _ _
          exact max_eq_left (by linarith)
        rw [hbox, mul_zero, zero_add]
        exact ih hs a b (fun v hv' => hv v (List.mem_cons_of_mem _ hv'))

lemma segAreas_box : ∀ (x y : List ℚ), x.Pairwise (· ≤ ·) →
    ∀ (i : ℕ) (bs t : ℚ) (hi : i < x.length),
      bisectRight x bs = i → 1 ≤ i → bs ≤ t → t ≤ x.get ⟨i, hi⟩ →
      segAreas x y bs t = (t - bs) * y.getD (i - 1) 0 := by
  intro x
  induction x with
  | nil => intro y _ i bs t hi; exact absurd hi (Nat.not_lt_zero i)
  | cons x1 rest ih =>
    intro y hsort i bs t hi hbis h1i hbst ht
    have hx1 : x1 ≤ bs := by
      by_contra hx1
      have hb0 : bisectRight (x1 :: rest) bs = 0 := by
        simp [bisectRight, List.takeWhile_cons, hx1]
      omega
    have hbiscons : bisectRight (x1 :: rest) bs = bisectRight rest bs + 1 := by
      simp [bisectRight, List.takeWhile_cons, hx1, Nat.add_comm]
    cases rest with
    | nil => simp at hi; omega
    | cons x2 xs =>
      rcases List.pairwise_cons.mp hsort with ⟨hx1le, hsort'⟩
      by_cases hx2 : x2 ≤ bs
      · -- i ≥ 2: the first box is empty, recurse on the tail
        obtain ⟨j, rfl⟩ : ∃ j, i = j + 2 := by
          have hj1 : 1 ≤ bisectRight (x2 :: xs) bs := by
            have h0 : (0:ℕ) < bisectRight (x2 :: xs) bs :=
              (bisectRight_iff hsort' bs 0 (by simp)).mp (by simpa using hx2)
            omega
          exact ⟨i - 2, by omega⟩
        have hbis' : bisectRight (x2 :: xs) bs = j + 1 := by omega
        have hi' : j + 1 < (x2 :: xs).length := by
          simp at hi ⊢; omega
        have ht' : t ≤ (x2 :: xs).get ⟨j + 1, hi'⟩ := ht
        cases y with
        | nil => rw [segAreas_nil_right]; simp
        | cons h hs =>
          rw [segAreas_cons]
          have hbox0 : boxLen bs t x1 x2 = 0 := by
            have hm : min t x2 ≤ x2 := min_le_right _ _
            have hM : bs ≤ max bs x1 := le_max_left _ _
            exact max_eq_left (by linarith)
          rw [hbox0, mul_zero, zero_add,
            ih hs hsort' (j + 1) bs t hi' hbis' (by omega) hbst ht']
          rfl
      · -- i = 1: one partial box, everything to the right is empty
        have hbis0 : bisectRight (x2 :: xs) bs = 0 := by
          by_contra h0
          exact hx2 ((bisectRight_iff hsort' bs 0 (by simp)).mpr
            (Nat.pos_of_ne_zero h0))
        have hi1 : i = 1 := by omega
        subst hi1
        have ht2 : t ≤ x2 := ht
        cases y with
        | nil => rw [segAreas_nil_right]; simp
        | cons h hs =>
          rw [segAreas_cons]
          have hrest : segAreas (x2 :: xs) hs bs t = 0 := by
            apply segAreas_right_le
            intro v hv
            rcases List.mem_cons.mp hv with rfl | hv'
            · exact ht2
            · rcases List.pairwise_cons.mp hsort' with ⟨hx2le, _⟩
              exact le_trans ht2 (hx2le v hv')
          have hbox : boxLen bs t x1 x2 = t - bs := by
            unfold boxLen
            rw [min_eq_left ht2, max_eq_left hx1]
            exact max_eq_right (by linarith)
          rw [hrest, add_zero, hbox]
          rw [show ((h :: hs).getD 0 0 : ℚ) = h from rfl]
          ring

lemma segAreas_pos : ∀ (x y : List ℚ) (a b x0 xl : ℚ),
    x.length = y.length → (∀ r ∈ y, 0 < r) →
    x.head? = some x0 → x.getLast? = some xl →
    x0 ≤ a → b ≤ xl → a < b → 0 < segAreas x y a b := by
  intro x
  induction x with
  | nil => intro y a b x0 xl _ _ hhead; cases hhead
  | cons x1 rest ih =>
    intro y a b x0 xl hlen hpos hhead hlast hx0 hbxl hab
    have hx0' : x0 = x1 := by simpa using hhead.symm
    rw [hx0'] at hx0
    cases rest with
    | nil =>
      have hxl : xl = x1 := by simpa using hlast.symm
      rw [hxl] at hbxl
      linarith
    | cons x2 xs =>
      cases y with
      | nil => simp at hlen
      | cons h hs =>
        rw [segAreas_cons]
        have hpos1 : 0 < h := hpos h (List.mem_cons_self _ _)
        have hposr : ∀ r ∈ hs, 0 < r := fun r hr => hpos r (List.mem_cons_of_mem _ hr)
        have hlast' : (x2 :: xs).getLast? = some xl := hlast
        have hrest0 : 0 ≤ segAreas (x2 :: xs) hs a b :=
          segAreas_nonneg _ _ _ _ (fun r hr => (hposr r hr).le)
        rcases le_total b x2 with hbx2 | hx2b
        · have hbox : boxLen a b x1 x2 = b - a := by
            unfold boxLen
            rw [min_eq_left hbx2, max_eq_left hx0]
            exact max_eq_right (by linarith)
          rw [hbox]
          nlinarith
        · rcases lt_or_le a x2 with hax2 | hx2a
          · have hbox : boxLen a b x1 x2 = x2 - a := by
              unfold boxLen
              rw [min_eq_right hx2b, max_eq_left hx0]
              exact max_eq_right (by linarith)
            rw [hbox]
            nlinarith
          · have hrec : 0 < segAreas (x2 :: xs) hs a b :=
              ih hs a b x2 xl (by simpa using hlen) hposr (by simp) hlast'
                hx2a hbxl hab
            have hbox := boxLen_nonneg a b x1 x2
            nlinarith

lemma lesion_go_spec
    (x y : List ℚ) (hsort : x.Pairwise (· ≤ ·)) (hlen : x.length = y.length)
    (hpos : ∀ r ∈ y, 0 < r) (x0 xl : ℚ)
    (hhead : x.head? = some x0) (hlast : x.getLast? = some xl)
    (target lifespan now prev : ℚ) (hplife : prev ≤ lifespan)
    (hlife : lifespan ≤ xl) :
    ∀ (fuel : ℕ) (bs cum : ℚ),
      x.length + 1 ≤ fuel + bisectRight x bs →
      x0 ≤ bs → prev ≤ bs → cum = segAreas x y prev bs → cum ≤ target →
      (cum < target ∨ bisectRight x bs < x.length) →
      (segAreas x y prev xl < target ∧
        compute_lesion_delay_go ⟨x, y⟩ target lifespan now fuel cum bs
          = .ok none) ∨
      (∃ t, prev ≤ t ∧ t ≤ xl ∧ segAreas x y prev t = target ∧
        compute_lesion_delay_go ⟨x, y⟩ target lifespan now fuel cum bs =
          if t ≤ lifespan then .ok (some (t - now)) else .ok none) := by
  have hn0 : 0 < x.length := by
    cases x with
    | nil => cases hhead
    | cons a t => simp
  have hget0 : x.get ⟨0, hn0⟩ = x0 := by
    cases x with
    | nil => cases hhead
    | cons a t => simpa using hhead
  intro fuel
  induction fuel with
  | zero =>
    intro bs cum hfuel _ _ _ _ _
    have := bisectRight_le_length x bs
    omega
  | succ f ih =>
    intro bs cum hfuel hx0bs hprevbs hcum hcumle hinv
    simp only [compute_lesion_delay_go]
    by_cases hex : (⟨x, y⟩ : StepFunction ℚ).x.length ≤
        bisectRight (⟨x, y⟩ : StepFunction ℚ).x bs
    · rw [if_pos hex]
      left
      refine ⟨?_, rfl⟩
      have hbn : bisectRight x bs = x.length :=
        le_antisymm (bisectRight_le_length x bs) hex
      have hcumlt : cum < target := by
        rcases hinv with h | h
        · exact h
        · omega
      have hxlbs : xl ≤ bs :=
        bisect_eq_length_imp x bs hbn xl (List.mem_of_mem_getLast? hlast)
      have hsplit : segAreas x y prev bs =
          segAreas x y prev xl + segAreas x y xl bs :=
        segAreas_split x y prev xl bs (le_trans hplife hlife) hxlbs
      have hnn : 0 ≤ segAreas x y xl bs :=
        segAreas_nonneg x y xl bs (fun r hr => (hpos r hr).le)
      linarith
    · rw [if_neg hex]
      push_neg at hex
      have hexx : bisectRight x bs < x.length := hex
      have hne0 : bisectRight x bs ≠ 0 := by
        intro h0
        have h1 : 0 < bisectRight x bs :=
          (bisectRight_iff hsort bs 0 hn0).mp (by rw [hget0]; exact hx0bs)
        omega
      have h1i : 1 ≤ bisectRight x bs := Nat.pos_of_ne_zero hne0
      have heval : StepFunction.eval (⟨x, y⟩ : StepFunction ℚ) bs =
          .ok (y.getD (bisectRight x bs - 1) 0) := by
        simp only [StepFunction.eval]
        rw [if_neg hne0]
        rfl
      have hbind : ∀ (v : ℚ) (F : ℚ → Except String (Option ℚ)),
          Except.bind (Except.ok v) F = F v := fun _ _ => rfl
      rw [heval, hbind]
      have hi1len : bisectRight x bs - 1 < y.length := by
        rw [← hlen]; omega
      have hgtpos : 0 < y.getD (bisectRight x bs - 1) 0 := by
        rw [getD_eq_get_q y (bisectRight x bs - 1) hi1len 0]
        exact hpos _ (List.get_mem _ _ _)
      have hbe : (⟨x, y⟩ : StepFunction ℚ).x.getD (bisectRight x bs) 0 =
          x.get ⟨bisectRight x bs, hexx⟩ :=
        getD_eq_get_q x (bisectRight x bs) hexx 0
      have hbsbe : bs < x.get ⟨bisectRight x bs, hexx⟩ := by
        by_contra hle
        push_neg at hle
        have h2 := (bisectRight_iff hsort bs (bisectRight x bs) hexx).mp hle
        omega
      have hbexl : x.get ⟨bisectRight x bs, hexx⟩ ≤ xl :=
        le_getLast_sorted x hsort xl hlast _ (List.get_mem _ _ _)
      have harea_seg : ∀ t, bs ≤ t → t ≤ x.get ⟨bisectRight x bs, hexx⟩ →
          segAreas x y bs t = (t - bs) * y.getD (bisectRight x bs - 1) 0 :=
        fun t h1 h2 =>
          segAreas_box x y hsort (bisectRight x bs) bs t hexx rfl h1i h1 h2
      have harea_to : ∀ t, bs ≤ t → t ≤ x.get ⟨bisectRight x bs, hexx⟩ →
          segAreas x y prev t =
            cum + (t - bs) * y.getD (bisectRight x bs - 1) 0 := by
        intro t h1 h2
        rw [segAreas_split x y prev bs t hprevbs h1, ← hcum, harea_seg t h1 h2]
      rw [hbe]
      by_cases hcross : target ≤
          cum + (x.get ⟨bisectRight x bs, hexx⟩ - bs) *
            y.getD (bisectRight x bs - 1) 0
      · rw [if_pos hcross, if_neg (ne_of_gt hgtpos)]
        right
        refine ⟨x.get ⟨bisectRight x bs, hexx⟩ -
          (cum + (x.get ⟨bisectRight x bs, hexx⟩ - bs) *
              y.getD (bisectRight x bs - 1) 0 - target) /
            y.getD (bisectRight x bs - 1) 0, ?_, ?_, ?_, rfl⟩
        · -- prev ≤ t*
          have hdivle : (cum + (x.get ⟨bisectRight x bs, hexx⟩ - bs) *
                y.getD (bisectRight x bs - 1) 0 - target) /
              y.getD (bisectRight x bs - 1) 0 ≤
              ((x.get ⟨bisectRight x bs, hexx⟩ - bs) *
                y.getD (bisectRight x bs - 1) 0) /
              y.getD (bisectRight x bs - 1) 0 :=
            (div_le_div_iff_of_pos_right hgtpos).mpr (by linarith)
          rw [mul_div_cancel_right₀ _ (ne_of_gt hgtpos)] at hdivle
          linarith
        · -- t* ≤ xl
          have hdivnn : 0 ≤ (cum + (x.get ⟨bisectRight x bs, hexx⟩ - bs) *
                y.getD (bisectRight x bs - 1) 0 - target) /
              y.getD (bisectRight x bs - 1) 0 :=
            div_nonneg (by linarith) hgtpos.le
          linarith
        · -- area equation
          have hdivle : (cum + (x.get ⟨bisectRight x bs, hexx⟩ - bs) *
                y.getD (bisectRight x bs - 1) 0 - target) /
              y.getD (bisectRight x bs - 1) 0 ≤
              ((x.get ⟨bisectRight x bs, hexx⟩ - bs) *
                y.getD (bisectRight x bs - 1) 0) /
              y.getD (bisectRight x bs - 1) 0 :=
            (div_le_div_iff_of_pos_right hgtpos).mpr (by linarith)
          rw [mul_div_cancel_right₀ _ (ne_of_gt hgtpos)] at hdivle
          have hdivnn : 0 ≤ (cum + (x.get ⟨bisectRight x bs, hexx⟩ - bs) *
                y.getD (bisectRight x bs - 1) 0 - target) /
              y.getD (bisectRight x bs - 1) 0 :=
            div_nonneg (by linarith) hgtpos.le
          rw [harea_to _ (by linarith) (by linarith)]
          have hexp : (x.get ⟨bisectRight x bs, hexx⟩ -
                (cum + (x.get ⟨bisectRight x bs, hexx⟩ - bs) *
                    y.getD (bisectRight x bs - 1) 0 - target) /
                  y.getD (bisectRight x bs - 1) 0 - bs) *
              y.getD (bisectRight x bs - 1) 0 =
              (x.get ⟨bisectRight x bs, hexx⟩ - bs) *
                y.getD (bisectRight x bs - 1) 0 -
              (cum + (x.get ⟨bisectRight x bs, hexx⟩ - bs) *
                y.getD (bisectRight x bs - 1) 0 - target) := by
            have hc : (cum + (x.get ⟨bisectRight x bs, hexx⟩ - bs) *
                  y.getD (bisectRight x bs - 1) 0 - target) /
                y.getD (bisectRight x bs - 1) 0 *
                y.getD (bisectRight x bs - 1) 0 =
                cum + (x.get ⟨bisectRight x bs, hexx⟩ - bs) *
                  y.getD (bisectRight x bs - 1) 0 - target :=
              div_mul_cancel₀ _ (ne_of_gt hgtpos)
            linear_combination -hc
          rw [hexp]
          ring
      · rw [if_neg hcross]
        push_neg at hcross
        have harea_be : segAreas x y prev (x.get ⟨bisectRight x bs, hexx⟩) =
            cum + (x.get ⟨bisectRight x bs, hexx⟩ - bs) *
              y.getD (bisectRight x bs - 1) 0 :=
          harea_to _ hbsbe.le le_rfl
        have hbis_be : bisectRight x bs + 1 ≤
            bisectRight x (x.get ⟨bisectRight x bs, hexx⟩) :=
          (bisectRight_iff hsort _ (bisectRight x bs) hexx).mp le_rfl
        exact ih (x.get ⟨bisectRight x bs, hexx⟩)
          (cum + (x.get ⟨bisectRight x bs, hexx⟩ - bs) *
            y.getD (bisectRight x bs - 1) 0)
          (by omega) (le_trans hx0bs hbsbe.le) (le_trans hprevbs hbsbe.le)
          harea_be.symm hcross.le (Or.inl hcross)

/-- C6: under the precondition that the incidence step curve (knots `x`,
strictly positive rates `y`) covers `[previous_lesion_onset_time,
expected_lifespan]` and `lesion_risk_index > 0`, `compute_lesion_delay`
(with `negLog` standing for the draw's `-log(1 - u) ≥ 0`, so `target_area
= negLog / riskIndex` as in the source) (1) returns a delay `d` only when
`lesion_risk_index` times the area under the curve from the previous onset
to `now + d` equals `-log(1 - u)` and `now + d ≤ expected_lifespan`; (2)
returns the no-further-lesion sentinel `none` exactly when the curve's
total area from the previous onset to its last knot falls short of the
target, or the solved onset time lies within the curve but beyond
`expected_lifespan`; and (3) always returns without an exception. -/
theorem compute_lesion_delay_spec
    (x y : List ℚ) (riskIndex negLog prevOnset lifespan now x0 xl : ℚ)
    (hsort : x.Pairwise (· ≤ ·)) (hlen : x.length = y.length)
    (hpos : ∀ r ∈ y, 0 < r)
    (hhead : x.head? = some x0) (hlast : x.getLast? = some xl)
    (hx0 : x0 ≤ prevOnset) (hprevxl : prevOnset < xl)
    (hR : 0 < riskIndex) (hneg : 0 ≤ negLog)
    (hplife : prevOnset ≤ lifespan) (hlife : lifespan ≤ xl) :
    (∀ d, compute_lesion_delay ⟨x, y⟩ riskIndex negLog lifespan now prevOnset
        = .ok (some d) →
      riskIndex * areaBetween ⟨x, y⟩ prevOnset (now + d) = negLog ∧
      now + d ≤ lifespan) ∧
    (compute_lesion_delay ⟨x, y⟩ riskIndex negLog lifespan now prevOnset
        = .ok none ↔
      riskIndex * areaBetween ⟨x, y⟩ prevOnset xl < negLog ∨
      ∃ t, t ≤ xl ∧ riskIndex * areaBetween ⟨x, y⟩ prevOnset t = negLog ∧
        lifespan < t) ∧
    (∃ r, compute_lesion_delay ⟨x, y⟩ riskIndex negLog lifespan now prevOnset
        = .ok r) := by
  have hRne : riskIndex ≠ 0 := ne_of_gt hR
  have hconv : ∀ A : ℚ, riskIndex * A = negLog ↔ A = negLog / riskIndex := by
    intro A
    rw [eq_div_iff hRne, mul_comm]
  have hconvlt : ∀ A : ℚ, riskIndex * A < negLog ↔ A < negLog / riskIndex := by
    intro A
    rw [lt_div_iff₀ hR, mul_comm]
  have hbprev : bisectRight x prevOnset < x.length := by
    rcases Nat.lt_or_ge (bisectRight x prevOnset) x.length with h | h
    · exact h
    · exfalso
      have hbn : bisectRight x prevOnset = x.length :=
        le_antisymm (bisectRight_le_length x prevOnset) h
      have := bisect_eq_length_imp x prevOnset hbn xl
        (List.mem_of_mem_getLast? hlast)
      linarith
  have hmaster := lesion_go_spec x y hsort hlen hpos x0 xl hhead hlast
    (negLog / riskIndex) lifespan now prevOnset hplife hlife
    (x.length + 1) prevOnset 0 (by omega)
    hx0 le_rfl (segAreas_of_le x y prevOnset prevOnset le_rfl).symm
    (div_nonneg hneg hR.le) (Or.inr hbprev)
  have hdef : compute_lesion_delay ⟨x, y⟩ riskIndex negLog lifespan now
      prevOnset = compute_lesion_delay_go ⟨x, y⟩ (negLog / riskIndex)
        lifespan now (x.length + 1) 0 prevOnset := rfl
  have hArea : areaBetween (⟨x, y⟩ : StepFunction ℚ) = segAreas x y := rfl
  refine ⟨?_, ?_, ?_⟩
  · intro d hd
    rcases hmaster with ⟨_, hres⟩ | ⟨t, hpt, htxl, hat, hres⟩
    · rw [hdef, hres] at hd
      simp at hd
    · rw [hdef, hres] at hd
      by_cases htl : t ≤ lifespan
      · rw [if_pos htl] at hd
        have hsd : t - now = d := by simpa using hd
        have hnd : now + d = t := by linarith
        constructor
        · rw [hArea, hnd]
          exact (hconv _).mpr hat
        · rw [hnd]; exact htl
      · rw [if_neg htl] at hd
        simp at hd
  · constructor
    · intro hnone
      rcases hmaster with ⟨hlt, hres⟩ | ⟨t, hpt, htxl, hat, hres⟩
      · left
        rw [hArea]
        exact (hconvlt _).mpr hlt
      · rw [hdef, hres] at hnone
        by_cases htl : t ≤ lifespan
        · rw [if_pos htl] at hnone
          simp at hnone
        · right
          push_neg at htl
          exact ⟨t, htxl, by rw [hArea]; exact (hconv _).mpr hat, htl⟩
    · intro hcond
      rcases hmaster with ⟨hlt, hres⟩ | ⟨t, hpt, htxl, hat, hres⟩
      · rw [hdef]; exact hres
      · by_cases htl : t ≤ lifespan
        · exfalso
          rcases hcond with hlt' | ⟨t', ht'xl, hat', hlt'⟩
          · rw [hArea] at hlt'
            have h1 : segAreas x y prevOnset xl < negLog / riskIndex :=
              (hconvlt _).mp hlt'
            have hsplit : segAreas x y prevOnset xl =
                segAreas x y prevOnset t + segAreas x y t xl :=
              segAreas_split x y prevOnset t xl hpt htxl
            have hnn : 0 ≤ segAreas x y t xl :=
              segAreas_nonneg x y t xl (fun r hr => (hpos r hr).le)
            linarith
          · rw [hArea] at hat'
            have hat'' : segAreas x y prevOnset t' = negLog / riskIndex :=
              (hconv _).mp hat'
            have htt' : t < t' := lt_of_le_of_lt htl hlt'
            have hsplit : segAreas x y prevOnset t' =
                segAreas x y prevOnset t + segAreas x y t t' :=
              segAreas_split x y prevOnset t t' hpt htt'.le
            have hz : segAreas x y t t' = 0 := by linarith
            have hposarea : 0 < segAreas x y t t' :=
              segAreas_pos x y t t' x0 xl hlen hpos hhead hlast
                (le_trans hx0 hpt) ht'xl htt'
            linarith
        · rw [hdef, hres, if_neg htl]
  · rcases hmaster with ⟨_, hres⟩ | ⟨t, _, _, _, hres⟩
    · exact ⟨none, by rw [hdef]; exact hres⟩
    · by_cases htl : t ≤ lifespan
      · exact ⟨some (t - now), by rw [hdef, hres, if_pos htl]⟩
      · exact ⟨none, by rw [hdef, hres, if_neg htl]⟩

/-- Witness for C6: constant incidence rate 1 on `[0, 100]`, risk index 1,
`-log(1 - u) = 2`, previous onset at 0, lifespan 80, clock at 0: the walk
returns delay 2, and indeed `1 * area(0, 0 + 2) = 2 ≤ 80`. -/
theorem compute_lesion_delay_spec_witness :
    1 * areaBetween ⟨[0, 100], [1, 1]⟩ 0 (0 + 2) = 2 ∧ (0 : ℚ) + 2 ≤ 80 :=
  (compute_lesion_delay_spec [0, 100] [1, 1] 1 2 0 80 0 0 100
      (by decide) rfl (by decide) rfl rfl (by decide) (by decide)
      (by decide) (by decide) (by decide) (by decide)).1 2
    (by with_unfolding_all rfl)

/-- C1 (code bug): the driver draws a lifespan for every cohort row before
any simulation (first conjunct), but the person loop then iterates the
exhausted `csv.DictReader` again, so it runs zero times for every cohort:
no row is ever simulated (second conjunct), contradicting the claim that
each of the first `npeople` rows is simulated (third conjunct exhibits a
one-row cohort with `npeople = 1` where the number of simulated rows is 0,
not `min npeople len(cohort) = 1`). -/
theorem driver_person_loop_runs_zero_times :
    (∀ (deathRate : ℕ → ℚ) (maxAge : ℕ) (rng : ℕ → ℚ)
        (cohortRows : List String) (npeople : ℕ),
      ((run deathRate maxAge rng cohortRows npeople).1.length =
          cohortRows.length ∧
        (run deathRate maxAge rng cohortRows npeople).2 = [])) ∧
    ((run (fun _ => 0) 100 (fun _ => 0) ["1"] 1).2.length ≠
      min 1 (["1"] : List String).length) := by
  constructor
  · intro deathRate maxAge rng cohortRows npeople
    constructor
    · simp [run, readAll]
    · simp [run, readAll]
  · decide

end Crcsim
